import Mathlib

/-!
# rcProtocol: the receiver session (`DeviceProtocol`)

A shallow embedding of `src/src/rcDeviceProtocol.cpp`.

* `uint8_t`, `uint16_t` values are natural numbers, `int8_t` results are integers;
  the one place where the C++ narrows a wider value (the store of a decoded channel
  into a `uint16_t`) carries an explicit `% 65536`.
* Arrays are lists; an index outside the array is a `Fault.outOfRange`, not a default value.
* The transceiver (`RF24`) is an explicit state: its receive queue, a script of what the
  outside world will do at the blocking calls, and the trace of every call made on it.
* The `while` loop of `update` runs on fuel; `update` supplies one more unit than there are
  buffered packets, and running out is the separate `Fault.fuel`.
-/

namespace RcProtocol

/-! ## Collaborators that are not part of `src/` -/

/-- Modelled from the spec: the class `RCSettings` of `rcSettings.h`, which is not under
`src/`. The spec (§3, SessionSettings) lists the fields of the record; the getters that
`DeviceProtocol` calls are the fields here, `getSettings` being the 32-byte encoded form. -/
structure RCSettings where
  getSettings : List Nat
  getPayloadSize : Nat
  getNumChannels : Nat
  getEnableAck : Bool
  getEnableAckPayload : Bool
  getCommsFrequency : Nat
deriving DecidableEq, Repr

/-- The power levels of the RF24 driver (`rf24_pa_dbm_e`). -/
inductive PALevel where
  | RF24_PA_MIN
  | RF24_PA_LOW
  | RF24_PA_HIGH
  | RF24_PA_MAX
deriving DecidableEq, Repr

/-- One payload in the receive queue of the transceiver: the pipe it came in on and its bytes. -/
structure Payload where
  pipe : Nat
  data : List Nat
deriving DecidableEq, Repr

/-- One call made on the transceiver (or on the clock), with its arguments and, where the
call reports one, its outcome. The trace of a run is the list of these in call order. -/
inductive Event where
  | begin
  | setPALevel (level : PALevel)
  | apply_settings (s : RCSettings)
  | openReadingPipe (number : Nat) (address : List Nat)
  | openWritingPipe (address : List Nat)
  | startListening
  | stopListening
  | flush_buffer
  | force_send (data : List Nat) (size : Nat) (timeout : Nat) (sent : Bool)
  | wait_till_available (timeout : Nat) (arrived : Bool)
  | available (found : Bool)
  | read (len : Nat)
  | write (data : List Nat) (len : Nat) (sent : Bool)
  | writeAckPayload (pipe : Nat) (data : List Nat) (len : Nat)
  | delay (ms : Nat)
  | saveRemoteID (id : List Nat)
deriving DecidableEq, Repr

/-- Modelled from the spec: the RadioLink primitive (§2), the `RF24` driver, which is
external. `rx` is the queue of buffered payloads, oldest first. The three scripts are the
behaviour of the outside world: `arrivals` gives, for each bounded wait that starts on an
empty queue, the payloads that come in before the deadline (none: the deadline expires);
`acks` gives, for each `write`, whether it is acknowledged; `forced` gives, for each
forced send, whether it gets through in time. An exhausted script means silence. -/
structure RF24 where
  rx : List Payload
  arrivals : List (List Payload)
  acks : List Bool
  forced : List Bool
  listening : Bool
  paLevel : PALevel
  log : List Event
deriving DecidableEq, Repr

/-- Record a call in the trace. -/
def RF24.emit (r : RF24) (e : Event) : RF24 :=
  { r with log := r.log ++ [e] }

/-- Radio call `begin()`. -/
def RF24.begin (r : RF24) : RF24 :=
  r.emit Event.begin

/-- Radio call `setPALevel(level)`. -/
def RF24.setPALevel (r : RF24) (level : PALevel) : RF24 :=
  { r with paLevel := level, log := r.log ++ [Event.setPALevel level] }

/-- Radio call `openReadingPipe(number, address)`. -/
def RF24.openReadingPipe (r : RF24) (number : Nat) (address : List Nat) : RF24 :=
  r.emit (Event.openReadingPipe number address)

/-- Radio call `openWritingPipe(address)`. -/
def RF24.openWritingPipe (r : RF24) (address : List Nat) : RF24 :=
  r.emit (Event.openWritingPipe address)

/-- Radio call `startListening()`. -/
def RF24.startListening (r : RF24) : RF24 :=
  { r with listening := true, log := r.log ++ [Event.startListening] }

/-- Radio call `stopListening()`. -/
def RF24.stopListening (r : RF24) : RF24 :=
  { r with listening := false, log := r.log ++ [Event.stopListening] }

/-- Radio call `available(&pipe)`: whether a payload is buffered; when one is, `pipe`
receives the number of the pipe it came in on, otherwise `pipe` keeps its value. -/
def RF24.available (r : RF24) (pipe : Nat) : Bool × Nat × RF24 :=
  match r.rx with
  | [] => (false, pipe, r.emit (Event.available false))
  | p :: _ => (true, p.pipe, r.emit (Event.available true))

/-- Radio call `read(buf, len)`: the oldest buffered payload leaves the queue and its first
`len` bytes overwrite the start of `buf`; bytes of `buf` past the payload keep their value.
On an empty queue `buf` is returned as it was. -/
def RF24.read (r : RF24) (buf : List Nat) (len : Nat) : List Nat × RF24 :=
  match r.rx with
  | [] => (buf, r.emit (Event.read len))
  | p :: rest =>
    ((p.data.take len) ++ buf.drop (min len p.data.length),
      { r with rx := rest, log := r.log ++ [Event.read len] })

/-- Radio call `write(buf, len)`: an explicit transmission; the result is whether the
outside world acknowledged it. -/
def RF24.write (r : RF24) (buf : List Nat) (len : Nat) : Bool × RF24 :=
  match r.acks with
  | [] => (false, r.emit (Event.write buf len false))
  | a :: rest => (a, { r with acks := rest, log := r.log ++ [Event.write buf len a] })

/-- Radio call `writeAckPayload(pipe, buf, len)`: attach bytes to the next acknowledgement. -/
def RF24.writeAckPayload (r : RF24) (pipe : Nat) (buf : List Nat) (len : Nat) : RF24 :=
  r.emit (Event.writeAckPayload pipe buf len)

/-- The Arduino call `delay(ms)`; the passage of time is recorded in the trace. -/
def delay (r : RF24) (ms : Nat) : RF24 :=
  r.emit (Event.delay ms)

/-- Modelled from the spec: the constants and members of the shared base `RCGlobal`
(`rcGlobal.h`, not under `src/`) that `DeviceProtocol` uses. Their values are not in the
sources at hand, so they are parameters; `RCGlobal.WF` states what the spec says of them. -/
structure RCGlobal where
  _ACK : Nat
  _NACK : Nat
  _TEST : Nat
  _PACKET_CHANNELS : Nat
  _PACKET_DISCONNECT : Nat
  _PACKET_RECONNECT : Nat
  _PAIR_ADDRESS : List Nat
  _pairSettings : RCSettings
  RC_TIMEOUT : Nat
  RC_CONNECT_TIMEOUT : Nat
  RC_ERROR_LOST_CONNECTION : Int
  RC_ERROR_TIMEOUT : Int
  RC_ERROR_BAD_DATA : Int
  RC_ERROR_CONNECTION_REFUSED : Int
  RC_ERROR_NOT_CONNECTED : Int
deriving DecidableEq, Repr

/-- Modelled from the spec: what §6 says of the constants. The error results are negative;
ACK, NACK and the test byte are distinct from one another; a type tag occupies the high
nibble of a byte, and the three tags are distinct. -/
def RCGlobal.WF (K : RCGlobal) : Prop :=
  K.RC_ERROR_LOST_CONNECTION < 0 ∧ K.RC_ERROR_TIMEOUT < 0 ∧ K.RC_ERROR_BAD_DATA < 0 ∧
  K.RC_ERROR_CONNECTION_REFUSED < 0 ∧ K.RC_ERROR_NOT_CONNECTED < 0 ∧
  K._ACK ≠ K._NACK ∧ K._ACK ≠ K._TEST ∧ K._NACK ≠ K._TEST ∧
  K._PACKET_CHANNELS &&& 0xF0 = K._PACKET_CHANNELS ∧
  K._PACKET_DISCONNECT &&& 0xF0 = K._PACKET_DISCONNECT ∧
  K._PACKET_RECONNECT &&& 0xF0 = K._PACKET_RECONNECT ∧
  K._PACKET_CHANNELS ≠ K._PACKET_DISCONNECT ∧ K._PACKET_CHANNELS ≠ K._PACKET_RECONNECT ∧
  K._PACKET_DISCONNECT ≠ K._PACKET_RECONNECT

instance (K : RCGlobal) : Decidable K.WF := by
  unfold RCGlobal.WF
  infer_instance

/-- Modelled from the spec: `RCGlobal::flush_buffer`, not under `src/`; it "discards any
stale buffered data" (§4.1). -/
def flush_buffer (r : RF24) : RF24 :=
  { r with rx := [], log := r.log ++ [Event.flush_buffer] }

/-- Modelled from the spec: `RCGlobal::wait_till_available`, not under `src/`; a wait that
polls the availability of the radio until data arrives or the deadline expires (§5). The
result is 0 when a payload is buffered, and -1 when the deadline expired. With a payload
already buffered it returns at once; otherwise the next entry of `arrivals` decides. -/
def wait_till_available (r : RF24) (timeout : Nat) : Int × RF24 :=
  match r.rx with
  | _ :: _ => (0, r.emit (Event.wait_till_available timeout true))
  | [] =>
    match r.arrivals with
    | [] => (-1, r.emit (Event.wait_till_available timeout false))
    | [] :: later =>
      (-1, { r with arrivals := later, log := r.log ++ [Event.wait_till_available timeout false] })
    | (p :: ps) :: later =>
      (0, { r with rx := p :: ps, arrivals := later,
                   log := r.log ++ [Event.wait_till_available timeout true] })

/-- Modelled from the spec: `RCGlobal::force_send`, not under `src/`; a transmission "with a
bounded retry/timeout" (§4.1 connect, step 1). The result is 0 when the data got through
within the timeout and -1 when it did not; the next entry of `forced` decides. -/
def force_send (r : RF24) (data : List Nat) (size : Nat) (timeout : Nat) : Int × RF24 :=
  match r.forced with
  | true :: later =>
    (0, { r with forced := later, log := r.log ++ [Event.force_send data size timeout true] })
  | false :: later =>
    (-1, { r with forced := later, log := r.log ++ [Event.force_send data size timeout false] })
  | [] => (-1, r.emit (Event.force_send data size timeout false))

/-- Modelled from the spec: `RCGlobal::apply_settings`, not under `src/`; it configures the
radio from a settings record. The call is recorded in the trace. -/
def apply_settings (r : RF24) (s : RCSettings) : RF24 :=
  r.emit (Event.apply_settings s)

/-! ## The receiver session -/

/-- What the C++ leaves undefined: an array index outside its array; and the loop of
`update` running out of fuel in this embedding. -/
inductive Fault where
  | outOfRange
  | fuel
deriving DecidableEq, Repr

/-- The members of `DeviceProtocol` (`rcDeviceProtocol.h` 163-165) together with the
members `_settings` and `_radio` it inherits from `RCGlobal`. -/
structure DeviceProtocol where
  _deviceId : List Nat
  _remoteId : List Nat
  _isConnected : Bool
  _settings : RCSettings
  _radio : RF24
deriving DecidableEq, Repr

/-- Method `DeviceProtocol::begin` (`rcDeviceProtocol.cpp` 18-23). -/
def DeviceProtocol.begin (d : DeviceProtocol) (settings : RCSettings) : DeviceProtocol :=
  let d := { d with _settings := settings }
  let r := d._radio.begin
  let r := r.stopListening
  { d with _radio := r }

/-- Method `DeviceProtocol::isConnected` (`rcDeviceProtocol.cpp` 191-193). -/
def DeviceProtocol.isConnected (d : DeviceProtocol) : Bool :=
  d._isConnected

/-- Method `DeviceProtocol::pair` (`rcDeviceProtocol.cpp` 25-77). The callback
`saveRemoteID` acts on the caller, outside the session: its invocation is recorded in the
trace with the address it receives. The local array `radioId` is not initialised in the
source; here it starts as zeros, which shows only when the announcement is shorter than 5
bytes. -/
def DeviceProtocol.pair (K : RCGlobal) (d : DeviceProtocol) : Int × DeviceProtocol :=
  let radioId : List Nat := List.replicate 5 0
  let r := d._radio.setPALevel PALevel.RF24_PA_LOW
  let r := apply_settings r K._pairSettings
  let r := r.openReadingPipe 1 K._PAIR_ADDRESS
  let r := r.startListening
  let r := flush_buffer r
  let w := wait_till_available r K.RC_TIMEOUT
  if w.1 != 0 then
    (K.RC_ERROR_TIMEOUT, { d with _radio := w.2 })
  else
    let rd := w.2.read radioId 5
    let radioId := rd.1
    let r := rd.2.emit (Event.saveRemoteID radioId)
    let r := r.stopListening
    let r := r.openWritingPipe radioId
    let r := delay r 200
    let s1 := r.write d._deviceId 5
    if !s1.1 then
      (K.RC_ERROR_LOST_CONNECTION, { d with _radio := s1.2 })
    else
      let r := delay s1.2 200
      let s2 := r.write d._settings.getSettings 32
      if !s2.1 then
        (K.RC_ERROR_LOST_CONNECTION, { d with _radio := s2.2 })
      else
        (0, { d with _radio := s2.2 })

/-- The loop `for(i = 0; i < 5; i++) _remoteId[i] = remoteId[i]` (`rcDeviceProtocol.cpp`
184-186) over the member array `dst` and the argument array `remoteId`. -/
def copyRemoteId (remoteId : List Nat) (dst : List Nat) : Except Fault (List Nat) :=
  (List.range 5).foldlM
    (fun acc i =>
      match remoteId[i]? with
      | none => Except.error Fault.outOfRange
      | some b => if i < acc.length then Except.ok (acc.set i b) else Except.error Fault.outOfRange)
    dst

/-- The value of a one-byte local that was handed to `read` as a one-byte buffer. -/
def byteOf (buf : List Nat) : Nat :=
  buf.headD 0

/-- The end of a successful `connect` (`rcDeviceProtocol.cpp` 181-188). -/
def connectDone (d : DeviceProtocol) (r : RF24) (remoteId : List Nat) :
    Except Fault (Int × DeviceProtocol) :=
  let d := { d with _isConnected := true, _radio := r }
  match copyRemoteId remoteId d._remoteId with
  | Except.error e => Except.error e
  | Except.ok rid => Except.ok (0, { d with _remoteId := rid })

/-- The block that `connect` repeats in each of its three modes (`rcDeviceProtocol.cpp`
133-143, 146-156 and 159-169): wait for the peer's byte, read it into the one-byte local
`test` (0 so far) and compare it with the test byte. `some code` is the early `return code`,
taken after `stopListening`; `none` means the byte matched and `connect` goes on. -/
def awaitTest (K : RCGlobal) (r : RF24) : Option Int × RF24 :=
  let test : List Nat := [0]
  let w := wait_till_available r K.RC_CONNECT_TIMEOUT
  if w.1 != 0 then
    (some K.RC_ERROR_LOST_CONNECTION, w.2.stopListening)
  else
    let rd := w.2.read test 1
    if byteOf rd.1 != K._TEST then
      (some K.RC_ERROR_BAD_DATA, rd.2.stopListening)
    else
      (none, rd.2)

/-- The part of `connect` after the peer has answered ACK (`rcDeviceProtocol.cpp` 122-188):
the negotiated settings and the high power level are applied, then the confirmation round
runs in the negotiated mode, and only then is the session marked connected. `r` is the
radio as the first part left it. -/
def connectConfirm (K : RCGlobal) (d : DeviceProtocol) (r : RF24) (remoteId : List Nat) :
    Except Fault (Int × DeviceProtocol) :=
  let r := apply_settings r d._settings
  let r := r.setPALevel PALevel.RF24_PA_HIGH
  let r := r.startListening
  if d._settings.getEnableAck then
    if d._settings.getEnableAckPayload then
      let r := r.writeAckPayload 1 [K._TEST] 1
      match awaitTest K r with
      | (some code, r) => Except.ok (code, { d with _radio := r })
      | (none, r) => connectDone d r remoteId
    else
      match awaitTest K r with
      | (some code, r) => Except.ok (code, { d with _radio := r })
      | (none, r) => connectDone d r remoteId
  else
    match awaitTest K r with
    | (some code, r) => Except.ok (code, { d with _radio := r })
    | (none, r) =>
      let r := r.stopListening
      let r := delay r 200
      let wr := r.write [K._TEST] 1
      let r := wr.2.startListening
      connectDone d r remoteId

/-- Method `DeviceProtocol::connect` (`rcDeviceProtocol.cpp` 79-189); its second half is
`connectConfirm`. The one-byte local `connectSuccess` starts at 0 and is read into as a
one-byte buffer. -/
def DeviceProtocol.connect (K : RCGlobal) (d : DeviceProtocol) (remoteId : List Nat) :
    Except Fault (Int × DeviceProtocol) :=
  let connectSuccess : List Nat := [0]
  let d := { d with _isConnected := false }
  let r := d._radio.setPALevel PALevel.RF24_PA_LOW
  let r := apply_settings r K._pairSettings
  let r := r.openWritingPipe remoteId
  let r := r.openReadingPipe 1 d._deviceId
  let r := flush_buffer r
  let r := r.stopListening
  let fs := force_send r d._deviceId 5 K.RC_TIMEOUT
  if fs.1 != 0 then
    Except.ok (K.RC_ERROR_TIMEOUT, { d with _radio := fs.2 })
  else
    let r := fs.2.startListening
    let w := wait_till_available r K.RC_CONNECT_TIMEOUT
    if w.1 != 0 then
      Except.ok (K.RC_ERROR_LOST_CONNECTION, { d with _radio := w.2 })
    else
      let rd := w.2.read connectSuccess 1
      let connectSuccess := rd.1
      let r := rd.2.stopListening
      if byteOf connectSuccess == K._NACK then
        Except.ok (K.RC_ERROR_CONNECTION_REFUSED, { d with _radio := r })
      else if byteOf connectSuccess != K._ACK then
        Except.ok (K.RC_ERROR_BAD_DATA, { d with _radio := r })
      else
        connectConfirm K d r remoteId

/-- Method `DeviceProtocol::check_packet` with four arguments (`rcDeviceProtocol.cpp`
195-215). `returnData` is the caller's buffer and comes back as the second component;
`telemetry` is `none` for the null pointer. -/
def DeviceProtocol.check_packet (K : RCGlobal) (d : DeviceProtocol) (returnData : List Nat)
    (dataSize : Nat) (telemetry : Option (List Nat)) (telemetrySize : Nat) :
    Int × List Nat × DeviceProtocol :=
  if !d.isConnected then
    (K.RC_ERROR_NOT_CONNECTED, returnData, d)
  else
    let pipe : Nat := 0
    let av := d._radio.available pipe
    if av.1 then
      let pipe := av.2.1
      let rd := av.2.2.read returnData dataSize
      let r :=
        match telemetry with
        | some t => if d._settings.getEnableAckPayload then rd.2.writeAckPayload pipe t telemetrySize
                    else rd.2
        | none => rd.2
      (1, rd.1, { d with _radio := r })
    else
      (0, returnData, { d with _radio := av.2.2 })

/-- Method `DeviceProtocol::check_packet` with two arguments (`rcDeviceProtocol.cpp`
217-219). -/
def DeviceProtocol.check_packet2 (K : RCGlobal) (d : DeviceProtocol) (returnData : List Nat)
    (dataSize : Nat) : Int × List Nat × DeviceProtocol :=
  d.check_packet K returnData dataSize none 0

/-- The loop `for(i = 0; i < getNumChannels(); i++) channels[i] = (packet[i*2+1] << 8) |
packet[i*2+2]` (`rcDeviceProtocol.cpp` 247-249); the store narrows to 16 bits. -/
def decodeChannels (numChannels : Nat) (packet : List Nat) (channels : List Nat) :
    Except Fault (List Nat) :=
  (List.range numChannels).foldlM
    (fun ch i =>
      match packet[i * 2 + 1]?, packet[i * 2 + 2]? with
      | some hi, some lo =>
        if i < ch.length then Except.ok (ch.set i (((hi <<< 8) ||| lo) % 65536))
        else Except.error Fault.outOfRange
      | _, _ => Except.error Fault.outOfRange)
    channels

/-- The explicit acknowledgement of `update` (`rcDeviceProtocol.cpp` 254-257 and 265-268):
stop listening, settle, write the ACK byte, listen again. The result of the write is
dropped, as in the source. -/
def sendAck (K : RCGlobal) (r : RF24) (settle : Nat) : RF24 :=
  let r := r.stopListening
  let r := delay r settle
  let wr := r.write [K._ACK] 1
  wr.2.startListening

/-- The dispatch on the packet just read, the body of the loop of `update` up to the next
`check_packet` (`rcDeviceProtocol.cpp` 243-270). The result is the new `status`, the
channels array and the session. -/
def handlePacket (K : RCGlobal) (d : DeviceProtocol) (status : Int) (packet : List Nat)
    (channels : List Nat) : Except Fault (Int × List Nat × DeviceProtocol) :=
  match packet[0]? with
  | none => Except.error Fault.outOfRange
  | some b0 =>
    if b0 &&& 0xF0 == K._PACKET_CHANNELS then
      match decodeChannels d._settings.getNumChannels packet channels with
      | Except.error e => Except.error e
      | Except.ok channels => Except.ok (1, channels, d)
    else if b0 == K._PACKET_DISCONNECT then
      let d := if !d._settings.getEnableAck then { d with _radio := sendAck K d._radio 50 } else d
      Except.ok (status, channels, { d with _isConnected := false })
    else if b0 == K._PACKET_RECONNECT then
      let d := if !d._settings.getEnableAck then { d with _radio := sendAck K d._radio 20 } else d
      Except.ok (status, channels, d)
    else
      Except.ok (status, channels, d)

/-- The loop `while(packetStatus == 1)` of `update` and what follows it
(`rcDeviceProtocol.cpp` 238-281), on fuel: one unit per iteration. -/
def updateLoop (K : RCGlobal) :
    Nat → Int → Int → List Nat → List Nat → DeviceProtocol →
    Except Fault (Int × List Nat × DeviceProtocol)
  | 0, packetStatus, status, _, channels, d =>
    if packetStatus == 1 then Except.error Fault.fuel
    else Except.ok (if packetStatus < 0 then packetStatus else status, channels, d)
  | fuel + 1, packetStatus, status, packet, channels, d =>
    if packetStatus == 1 then
      match handlePacket K d status packet channels with
      | Except.error e => Except.error e
      | Except.ok (status, channels, d) =>
        let cp := d.check_packet2 K packet d._settings.getPayloadSize
        updateLoop K fuel cp.1 status cp.2.1 channels cp.2.2
    else Except.ok (if packetStatus < 0 then packetStatus else status, channels, d)

/-- Method `DeviceProtocol::update` (`rcDeviceProtocol.cpp` 221-282). The local array
`packet` has `getPayloadSize()` bytes and is not initialised in the source; here it starts
as zeros. It is only looked at after a `read`, and a `read` of a payload of the configured
size overwrites all of it, so the zeros show only behind a payload that is shorter.
No payload arrives during the call, so one unit of fuel per buffered payload and one for
the closing test is enough. -/
def DeviceProtocol.update (K : RCGlobal) (d : DeviceProtocol) (channels : List Nat)
    (telemetry : Option (List Nat)) : Except Fault (Int × List Nat × DeviceProtocol) :=
  if !d.isConnected then
    Except.ok (K.RC_ERROR_NOT_CONNECTED, channels, d)
  else
    let packet : List Nat := List.replicate d._settings.getPayloadSize 0
    let cp := d.check_packet K packet d._settings.getPayloadSize telemetry
      d._settings.getPayloadSize
    updateLoop K (d._radio.rx.length + 1) cp.1 0 cp.2.1 channels cp.2.2

/-- Method `DeviceProtocol::getSettings` (`rcDeviceProtocol.cpp` 284-286). -/
def DeviceProtocol.getSettings (d : DeviceProtocol) : RCSettings :=
  d._settings

/-! ## Reading a trace -/

/-- The explicit transmissions of a trace: the `write` and forced-send calls. -/
def transmissions (log : List Event) : List Event :=
  log.filter fun e =>
    match e with
    | Event.write _ _ _ => true
    | Event.force_send _ _ _ _ => true
    | _ => false

/-- The acknowledgement payloads attached in a trace. -/
def ackPayloads (log : List Event) : List Event :=
  log.filter fun e =>
    match e with
    | Event.writeAckPayload _ _ _ => true
    | _ => false

/-- The `read` calls of a trace. -/
def reads (log : List Event) : List Event :=
  log.filter fun e =>
    match e with
    | Event.read _ => true
    | _ => false

/-! ## Concrete constants and sessions for the examples -/

/-- Modelled from the spec: one choice of the constants of `rcGlobal.h` that meets
`RCGlobal.WF`; the values themselves are not in the sources at hand. -/
def sampleGlobal : RCGlobal :=
  { _ACK := 0x06
    _NACK := 0x15
    _TEST := 0x61
    _PACKET_CHANNELS := 0xA0
    _PACKET_DISCONNECT := 0xC0
    _PACKET_RECONNECT := 0xD0
    _PAIR_ADDRESS := [0x50, 0x41, 0x49, 0x52, 0x30]
    _pairSettings :=
      { getSettings := List.replicate 32 0, getPayloadSize := 32, getNumChannels := 0,
        getEnableAck := true, getEnableAckPayload := false, getCommsFrequency := 60 }
    RC_TIMEOUT := 15000
    RC_CONNECT_TIMEOUT := 2500
    RC_ERROR_LOST_CONNECTION := -11
    RC_ERROR_TIMEOUT := -12
    RC_ERROR_BAD_DATA := -13
    RC_ERROR_CONNECTION_REFUSED := -14
    RC_ERROR_NOT_CONNECTED := -21 }

/-- A settings record with the given payload size, channel count and acknowledgement modes. -/
def sampleSettings (payloadSize numChannels : Nat) (ack ackPayload : Bool) : RCSettings :=
  { getSettings := List.replicate 32 0, getPayloadSize := payloadSize,
    getNumChannels := numChannels, getEnableAck := ack, getEnableAckPayload := ackPayload,
    getCommsFrequency := 60 }

/-- A quiet radio holding the given buffered payloads. -/
def sampleRadio (rx : List Payload) : RF24 :=
  { rx := rx, arrivals := [], acks := [], forced := [], listening := true,
    paLevel := PALevel.RF24_PA_HIGH, log := [] }

/-- A session with the given settings, connection flag and radio. -/
def sampleSession (s : RCSettings) (connected : Bool) (r : RF24) : DeviceProtocol :=
  { _deviceId := [1, 2, 3, 4, 5], _remoteId := [9, 8, 7, 6, 5], _isConnected := connected,
    _settings := s, _radio := r }

/-! ## Vocabulary of the statements -/

/-- The calls with which `connect` opens, before the forced send (`rcDeviceProtocol.cpp`
87-97). -/
def connectOpening (K : RCGlobal) (d : DeviceProtocol) (remoteId : List Nat) : List Event :=
  [Event.setPALevel PALevel.RF24_PA_LOW, Event.apply_settings K._pairSettings,
   Event.openWritingPipe remoteId, Event.openReadingPipe 1 d._deviceId,
   Event.flush_buffer, Event.stopListening]

/-- The first byte of a payload, as a one-byte `read` into a local that holds 0 sees it. -/
def firstByte (p : Payload) : Nat :=
  p.data.headD 0

/-- The settings records that a trace applies to the radio, in order. -/
def appliedSettings (log : List Event) : List RCSettings :=
  log.filterMap fun e =>
    match e with
    | Event.apply_settings s => some s
    | _ => none

/-- The power levels that a trace sets, in order. -/
def powerLevels (log : List Event) : List PALevel :=
  log.filterMap fun e =>
    match e with
    | Event.setPALevel l => some l
    | _ => none

/-- What a failed first half of `connect` leaves behind: the session is disconnected, the
radio is at low power, and the calls made are the opening followed by `rest`, among which
only the pairing settings and the low power level are applied. -/
def HandshakeOnly (K : RCGlobal) (d d' : DeviceProtocol) (remoteId : List Nat)
    (rest : List Event) : Prop :=
  d'.isConnected = false ∧ d'._remoteId = d._remoteId ∧
  d'._radio.paLevel = PALevel.RF24_PA_LOW ∧
  d'._radio.log = d._radio.log ++ (connectOpening K d remoteId ++ rest) ∧
  appliedSettings (connectOpening K d remoteId ++ rest) = [K._pairSettings] ∧
  powerLevels (connectOpening K d remoteId ++ rest) = [PALevel.RF24_PA_LOW]

/-- The payloads that a bounded wait finds: those already buffered, or else those that the
next entry of the arrival script brings in before the deadline. Empty: the wait times out. -/
def pendingOf (rx : List Payload) (arrivals : List (List Payload)) : List Payload :=
  match rx with
  | [] => arrivals.headD []
  | p :: ps => p :: ps

/-- The arrival script that a bounded wait leaves: an entry is used up only when the wait
started on an empty queue. -/
def laterOf (rx : List Payload) (arrivals : List (List Payload)) : List (List Payload) :=
  match rx with
  | [] => arrivals.tail
  | _ :: _ => arrivals

/-- The calls of `connect` from the forced send to the reading of an answer
(`rcDeviceProtocol.cpp` 100-113). -/
def connectAnswered (K : RCGlobal) (d : DeviceProtocol) : List Event :=
  [Event.force_send d._deviceId 5 K.RC_TIMEOUT true, Event.startListening,
   Event.wait_till_available K.RC_CONNECT_TIMEOUT true, Event.read 1, Event.stopListening]

/-- The calls of `connect` that apply what was negotiated (`rcDeviceProtocol.cpp` 122-126). -/
def connectRaised (d : DeviceProtocol) : List Event :=
  [Event.apply_settings d._settings, Event.setPALevel PALevel.RF24_PA_HIGH,
   Event.startListening]

/-- The radio of `connect` right after the answer of the peer has been read and listening
has stopped (`rcDeviceProtocol.cpp` 113): `ps` are the payloads that came in behind it. -/
def answeredRadio (K : RCGlobal) (d : DeviceProtocol) (remoteId : List Nat)
    (ps : List Payload) : RF24 :=
  { d._radio with
      rx := ps, arrivals := d._radio.arrivals.tail, forced := d._radio.forced.tail,
      listening := false, paLevel := PALevel.RF24_PA_LOW,
      log := d._radio.log ++ (connectOpening K d remoteId ++ connectAnswered K d) }

/-- Whether `update` takes the bytes of a packet for a Channels packet: the test of
`rcDeviceProtocol.cpp` 243 on byte 0. -/
def isChannelsPacket (K : RCGlobal) (bytes : List Nat) : Bool :=
  bytes.headD 0 &&& 0xF0 == K._PACKET_CHANNELS

/-- Whether `update` takes the bytes of a packet for a Disconnect packet: the test of
`rcDeviceProtocol.cpp` 252 on byte 0, reached when the Channels test fails. -/
def isDisconnectPacket (K : RCGlobal) (bytes : List Nat) : Bool :=
  !isChannelsPacket K bytes && bytes.headD 0 == K._PACKET_DISCONNECT

/-- The buffered payloads that one call of `update` reads: all of them up to and including
the first that it takes for a Disconnect packet. -/
def handled (K : RCGlobal) : List Payload → List Payload
  | [] => []
  | p :: rest => if isDisconnectPacket K p.data then [p] else p :: handled K rest

/-- The buffered payloads that one call of `update` leaves in the radio: those behind the
first that it takes for a Disconnect packet. -/
def unhandled (K : RCGlobal) : List Payload → List Payload
  | [] => []
  | p :: rest => if isDisconnectPacket K p.data then rest else unhandled K rest

/-- The result of `update` as a function of the payloads it has read, `status` being the
value of the local of that name before them. -/
def drainResult (K : RCGlobal) (status : Int) (read : List Payload) : Int :=
  if read.any (fun p => isDisconnectPacket K p.data) then K.RC_ERROR_NOT_CONNECTED
  else if read.any (fun p => isChannelsPacket K p.data) then 1
  else status

/-- What `update` relies on without checking: the session is connected, a packet holds the
tag byte and two bytes per channel (spec §3: `payloadSize ≥ 1 + 2*channelCount`), the
caller's array has room for every channel, and every buffered payload has the configured
size (spec §3: a packet is exactly `payloadSize` bytes). -/
def UpdateReady (d : DeviceProtocol) (channels : List Nat) : Prop :=
  d.isConnected = true ∧
  1 + 2 * d._settings.getNumChannels ≤ d._settings.getPayloadSize ∧
  d._settings.getNumChannels ≤ channels.length ∧
  ∀ p ∈ d._radio.rx, p.data.length = d._settings.getPayloadSize

instance (d : DeviceProtocol) (channels : List Nat) : Decidable (UpdateReady d channels) := by
  unfold UpdateReady
  infer_instance

/-- The values that the bytes of a Channels packet stand for: channel `i` is the 16-bit
number whose high byte is byte `2i+1` and whose low byte is byte `2i+2`. -/
def decodedValues (numChannels : Nat) (packet : List Nat) : List Nat :=
  (List.range numChannels).map fun i =>
    (((packet.getD (i * 2 + 1) 0) <<< 8) ||| (packet.getD (i * 2 + 2) 0)) % 65536

/-- The channels array after `update` has gone through the payloads `read`, oldest first:
each one taken for a Channels packet overwrites the first `numChannels` entries. -/
def channelsAfter (K : RCGlobal) (numChannels : Nat) : List Payload → List Nat → List Nat
  | [], channels => channels
  | p :: rest, channels =>
    channelsAfter K numChannels rest
      (if isChannelsPacket K p.data then
        decodedValues numChannels p.data ++ channels.drop numChannels
       else channels)

/-- The explicit acknowledgements of a trace: the `write` calls that send the ACK byte. -/
def IsAckWrite (K : RCGlobal) (e : Event) : Prop :=
  ∃ sent, e = Event.write [K._ACK] 1 sent

/-- The acknowledgement payload that the first `check_packet` of `update` attaches
(`rcDeviceProtocol.cpp` 232-234 with 207-209): the telemetry, on the pipe of the oldest
buffered payload, when there is such a payload, a telemetry buffer, and payload mode. -/
def telemetryAcks (d : DeviceProtocol) (telemetry : Option (List Nat)) : List Event :=
  match d._radio.rx, telemetry with
  | p :: _, some t =>
    if d._settings.getEnableAckPayload then
      [Event.writeAckPayload p.pipe t d._settings.getPayloadSize]
    else []
  | _, _ => []

/-- A radio with the given buffered payloads and the given scripts of the outside world. -/
def scriptedRadio (rx : List Payload) (forced : List Bool) (arrivals : List (List Payload))
    (acks : List Bool) : RF24 :=
  { rx := rx, arrivals := arrivals, acks := acks, forced := forced, listening := false,
    paLevel := PALevel.RF24_PA_MIN, log := [] }

/-- The calls with which `pair` opens, before the wait for an announcement
(`rcDeviceProtocol.cpp` 31-41). -/
def pairOpening (K : RCGlobal) : List Event :=
  [Event.setPALevel PALevel.RF24_PA_LOW, Event.apply_settings K._pairSettings,
   Event.openReadingPipe 1 K._PAIR_ADDRESS, Event.startListening, Event.flush_buffer]

/-- The 5-byte local `radioId` of `pair` after the announcement `p` has been read into it
(`rcDeviceProtocol.cpp` 49): the first 5 bytes of the payload. -/
def learnedId (p : Payload) : List Nat :=
  p.data.take 5 ++ (List.replicate 5 0).drop (min 5 p.data.length)

/-- The calls of `pair` from the arrival of the announcement `p` to the write of the device
identifier, whose outcome is `sent` (`rcDeviceProtocol.cpp` 44-63). -/
def pairAnnounced (K : RCGlobal) (d : DeviceProtocol) (p : Payload) (sent : Bool) :
    List Event :=
  [Event.wait_till_available K.RC_TIMEOUT true, Event.read 5,
   Event.saveRemoteID (learnedId p), Event.stopListening,
   Event.openWritingPipe (learnedId p), Event.delay 200,
   Event.write d._deviceId 5 sent]

/-- The addresses with which a trace invokes the callback `saveRemoteID`, in order. -/
def savedIds (log : List Event) : List (List Nat) :=
  log.filterMap fun e =>
    match e with
    | Event.saveRemoteID id => some id
    | _ => none

/-- The last of the payloads `read` that `update` takes for a Channels packet, if any. -/
def lastChannelsPacket (K : RCGlobal) : List Payload → Option Payload
  | [] => none
  | p :: rest =>
    match lastChannelsPacket K rest with
    | some q => some q
    | none => if isChannelsPacket K p.data then some p else none

/-! ## Bytes, arrays and the radio primitives -/

theorem copyRemoteId_ok (remoteId dst : List Nat) (hd : dst.length = 5)
    (hs : 5 ≤ remoteId.length) : copyRemoteId remoteId dst = Except.ok (remoteId.take 5) := by
  match dst, hd with
  | [a, b, c, e, f], _ =>
    match remoteId, hs with
    | s0 :: s1 :: s2 :: s3 :: s4 :: rest, _ =>
      simp [copyRemoteId, List.range, List.range.loop, List.foldlM, bind, Except.bind, pure,
        Except.pure]

theorem decode_byte (v : Nat) (h : v ≤ 65535) :
    (((v / 256) <<< 8) ||| (v % 256)) % 65536 = v := by
  have h1 : 2 ^ 8 * (v / 256) + v % 256 = 2 ^ 8 * (v / 256) ||| v % 256 :=
    Nat.mul_add_lt_is_or (by omega) (v / 256)
  rw [Nat.shiftLeft_eq, Nat.mul_comm, ← h1]
  omega

/-- Claim C10 (not-connected guard): on a disconnected session, whatever the radio holds
and whatever the arguments are, `update` and both forms of `check_packet` return
`RC_ERROR_NOT_CONNECTED` and hand back the channels array (or the data buffer) and the whole
session, radio and its trace included, exactly as they were: nothing is read from or
written to the radio. -/
theorem update_not_connected (K : RCGlobal) (d : DeviceProtocol) (channels : List Nat)
    (telemetry : Option (List Nat)) (returnData : List Nat) (dataSize telemetrySize : Nat)
    (h : d.isConnected = false) :
    d.update K channels telemetry = Except.ok (K.RC_ERROR_NOT_CONNECTED, channels, d) ∧
    d.check_packet K returnData dataSize telemetry telemetrySize
      = (K.RC_ERROR_NOT_CONNECTED, returnData, d) ∧
    d.check_packet2 K returnData dataSize = (K.RC_ERROR_NOT_CONNECTED, returnData, d) := by
  simp [DeviceProtocol.update, DeviceProtocol.check_packet, DeviceProtocol.check_packet2, h]

/-! ## `connect` -/

theorem connectDone_ok (d : DeviceProtocol) (r : RF24) (remoteId : List Nat)
    (hd : d._remoteId.length = 5) (hs : 5 ≤ remoteId.length) :
    connectDone d r remoteId =
      Except.ok (0, { d with _isConnected := true, _radio := r, _remoteId := remoteId.take 5 }) := by
  simp [connectDone, copyRemoteId_ok remoteId d._remoteId hd hs]

theorem awaitTest_cases (K : RCGlobal) (r : RF24) :
    (∃ r', awaitTest K r = (some K.RC_ERROR_LOST_CONNECTION, r') ∧ r'.listening = false) ∨
    (∃ r', awaitTest K r = (some K.RC_ERROR_BAD_DATA, r') ∧ r'.listening = false) ∨
    (∃ r', awaitTest K r = (none, r')) := by
  unfold awaitTest
  simp only []
  split_ifs
  · exact Or.inl ⟨_, rfl, rfl⟩
  · exact Or.inr (Or.inl ⟨_, rfl, rfl⟩)
  · exact Or.inr (Or.inr ⟨_, rfl⟩)

theorem connectConfirm_cases (K : RCGlobal) (d : DeviceProtocol) (r : RF24)
    (remoteId : List Nat) (hd : d._remoteId.length = 5) (hs : 5 ≤ remoteId.length) :
    (∃ r', connectConfirm K d r remoteId =
        Except.ok (K.RC_ERROR_LOST_CONNECTION, { d with _radio := r' }) ∧ r'.listening = false) ∨
    (∃ r', connectConfirm K d r remoteId =
        Except.ok (K.RC_ERROR_BAD_DATA, { d with _radio := r' }) ∧ r'.listening = false) ∨
    (∃ r', connectConfirm K d r remoteId =
        Except.ok (0, { d with _isConnected := true, _radio := r',
                               _remoteId := remoteId.take 5 })) := by
  unfold connectConfirm
  simp only []
  split_ifs
  · rcases awaitTest_cases K
      (((apply_settings r d._settings).setPALevel PALevel.RF24_PA_HIGH).startListening.writeAckPayload
        1 [K._TEST] 1) with ⟨r', h, hl⟩ | ⟨r', h, hl⟩ | ⟨r', h⟩
    · exact Or.inl ⟨r', by rw [h], hl⟩
    · exact Or.inr (Or.inl ⟨r', by rw [h], hl⟩)
    · exact Or.inr (Or.inr ⟨r', by rw [h]; exact connectDone_ok d r' remoteId hd hs⟩)
  · rcases awaitTest_cases K
      ((apply_settings r d._settings).setPALevel PALevel.RF24_PA_HIGH).startListening
      with ⟨r', h, hl⟩ | ⟨r', h, hl⟩ | ⟨r', h⟩
    · exact Or.inl ⟨r', by rw [h], hl⟩
    · exact Or.inr (Or.inl ⟨r', by rw [h], hl⟩)
    · exact Or.inr (Or.inr ⟨r', by rw [h]; exact connectDone_ok d r' remoteId hd hs⟩)
  · rcases awaitTest_cases K
      ((apply_settings r d._settings).setPALevel PALevel.RF24_PA_HIGH).startListening
      with ⟨r', h, hl⟩ | ⟨r', h, hl⟩ | ⟨r', h⟩
    · exact Or.inl ⟨r', by rw [h], hl⟩
    · exact Or.inr (Or.inl ⟨r', by rw [h], hl⟩)
    · exact Or.inr (Or.inr ⟨_, by rw [h]; exact connectDone_ok d _ remoteId hd hs⟩)

/-- Claim C1: for every settings record, every script of the radio and every prior state
of the session (connected or not), `connect` returns a result, and on return `isConnected`
holds exactly when the result is 0, every non-zero result leaves the session disconnected,
and with result 0 the stored peer address is the first 5 bytes of the argument. The error
constants are negative (`RCGlobal.WF`), the member array has its 5 bytes, and the argument
array has at least the 5 bytes that the code copies. -/
theorem connect_connected_iff_zero (K : RCGlobal) (d : DeviceProtocol) (remoteId : List Nat)
    (hK : K.WF) (hd : d._remoteId.length = 5) (hs : 5 ≤ remoteId.length) :
    ∃ code d', d.connect K remoteId = Except.ok (code, d') ∧
      (d'.isConnected = true ↔ code = 0) ∧
      (code ≠ 0 → d'.isConnected = false) ∧
      (code = 0 → d'._remoteId = remoteId.take 5) := by
  obtain ⟨h1, h2, h3, h4, -⟩ := hK
  unfold DeviceProtocol.connect
  simp only []
  split_ifs
  · exact ⟨_, _, rfl, by simp [DeviceProtocol.isConnected]; omega, by simp [DeviceProtocol.isConnected], by omega⟩
  · exact ⟨_, _, rfl, by simp [DeviceProtocol.isConnected]; omega, by simp [DeviceProtocol.isConnected], by omega⟩
  · exact ⟨_, _, rfl, by simp [DeviceProtocol.isConnected]; omega, by simp [DeviceProtocol.isConnected], by omega⟩
  · exact ⟨_, _, rfl, by simp [DeviceProtocol.isConnected]; omega, by simp [DeviceProtocol.isConnected], by omega⟩
  · rcases connectConfirm_cases K { d with _isConnected := false } _ remoteId hd hs
      with ⟨r', h, -⟩ | ⟨r', h, -⟩ | ⟨r', h⟩
    · exact ⟨_, _, h, by simp [DeviceProtocol.isConnected]; omega, by simp [DeviceProtocol.isConnected], by omega⟩
    · exact ⟨_, _, h, by simp [DeviceProtocol.isConnected]; omega, by simp [DeviceProtocol.isConnected], by omega⟩
    · exact ⟨_, _, h, by simp [DeviceProtocol.isConnected], by simp, by simp⟩

theorem byteOf_read (l : List Nat) :
    byteOf (List.take 1 l ++ List.drop (min 1 l.length) [0]) = l.headD 0 := by
  cases l <;> simp [byteOf]

theorem force_send_fail (r : RF24) (data : List Nat) (size timeout : Nat)
    (h : r.forced.head? ≠ some true) :
    force_send r data size timeout =
      (-1, { r with forced := r.forced.tail,
                    log := r.log ++ [Event.force_send data size timeout false] }) := by
  rcases r with ⟨rx, arr, acks, forced, li, pa, log⟩
  rcases forced with _ | ⟨b, fl⟩
  · simp [force_send, RF24.emit]
  · cases b
    · simp [force_send]
    · simp at h

theorem force_send_sent (r : RF24) (data : List Nat) (size timeout : Nat)
    (h : r.forced.head? = some true) :
    force_send r data size timeout =
      (0, { r with forced := r.forced.tail,
                   log := r.log ++ [Event.force_send data size timeout true] }) := by
  rcases r with ⟨rx, arr, acks, forced, li, pa, log⟩
  rcases forced with _ | ⟨b, fl⟩
  · simp at h
  · simp at h
    subst h
    simp [force_send]

/-- The whole of `connect` when the forced send does not get through. -/
theorem connect_timeout_eq (K : RCGlobal) (d : DeviceProtocol) (remoteId : List Nat)
    (hf : d._radio.forced.head? ≠ some true) :
    d.connect K remoteId = Except.ok (K.RC_ERROR_TIMEOUT,
      { d with _isConnected := false,
               _radio := { d._radio with
                 rx := [], forced := d._radio.forced.tail, listening := false,
                 paLevel := PALevel.RF24_PA_LOW,
                 log := d._radio.log ++ (connectOpening K d remoteId ++
                   [Event.force_send d._deviceId 5 K.RC_TIMEOUT false]) } }) := by
  unfold DeviceProtocol.connect
  simp only []
  rw [force_send_fail _ _ _ _ (by simpa [flush_buffer, RF24.stopListening, RF24.openReadingPipe,
    RF24.openWritingPipe, apply_settings, RF24.setPALevel, RF24.emit] using hf)]
  simp [flush_buffer, RF24.stopListening, RF24.openReadingPipe,
    RF24.openWritingPipe, apply_settings, RF24.setPALevel, RF24.emit, connectOpening]

theorem wait_eq (r : RF24) (timeout : Nat) :
    wait_till_available r timeout =
      (if pendingOf r.rx r.arrivals = [] then -1 else 0,
       { r with rx := pendingOf r.rx r.arrivals, arrivals := laterOf r.rx r.arrivals,
                log := r.log ++ [Event.wait_till_available timeout
                  (!(pendingOf r.rx r.arrivals).isEmpty)] }) := by
  rcases r with ⟨rx, arr, acks, forced, li, pa, log⟩
  rcases rx with _ | ⟨p, ps⟩
  · rcases arr with _ | ⟨a, later⟩
    · simp [wait_till_available, RF24.emit, pendingOf, laterOf]
    · rcases a with _ | ⟨q, qs⟩ <;> simp [wait_till_available, pendingOf, laterOf]
  · simp [wait_till_available, RF24.emit, pendingOf, laterOf]

theorem awaitTest_expired (K : RCGlobal) (r : RF24) (h : pendingOf r.rx r.arrivals = []) :
    awaitTest K r = (some K.RC_ERROR_LOST_CONNECTION,
      { r with rx := [], arrivals := laterOf r.rx r.arrivals, listening := false,
               log := r.log ++ [Event.wait_till_available K.RC_CONNECT_TIMEOUT false,
                                Event.stopListening] }) := by
  simp [awaitTest, wait_eq, h, RF24.stopListening]

theorem awaitTest_mismatch (K : RCGlobal) (r : RF24) (t : Payload) (ts : List Payload)
    (h : pendingOf r.rx r.arrivals = t :: ts) (hb : firstByte t ≠ K._TEST) :
    awaitTest K r = (some K.RC_ERROR_BAD_DATA,
      { r with rx := ts, arrivals := laterOf r.rx r.arrivals, listening := false,
               log := r.log ++ [Event.wait_till_available K.RC_CONNECT_TIMEOUT true,
                                Event.read 1, Event.stopListening] }) := by
  have hb' : ¬ byteOf (List.take 1 t.data ++ List.drop (min 1 t.data.length) [0]) = K._TEST := by
    rw [byteOf_read]; exact hb
  simp [awaitTest, wait_eq, h, RF24.stopListening, RF24.read, hb']

theorem awaitTest_match (K : RCGlobal) (r : RF24) (t : Payload) (ts : List Payload)
    (h : pendingOf r.rx r.arrivals = t :: ts) (hb : firstByte t = K._TEST) :
    awaitTest K r = (none,
      { r with rx := ts, arrivals := laterOf r.rx r.arrivals,
               log := r.log ++ [Event.wait_till_available K.RC_CONNECT_TIMEOUT true,
                                Event.read 1] }) := by
  have hb' : byteOf (List.take 1 t.data ++ List.drop (min 1 t.data.length) [0]) = K._TEST := by
    rw [byteOf_read]; exact hb
  simp [awaitTest, wait_eq, h, RF24.read, hb']

/-- The first half of `connect` when the forced send gets through and `p` is the first
payload to arrive: the dispatch on its first byte. -/
theorem connect_answered_eq (K : RCGlobal) (d : DeviceProtocol) (remoteId : List Nat)
    (p : Payload) (ps : List Payload)
    (hf : d._radio.forced.head? = some true) (ha : d._radio.arrivals.headD [] = p :: ps) :
    d.connect K remoteId =
      (if firstByte p = K._NACK then
         Except.ok (K.RC_ERROR_CONNECTION_REFUSED,
           { d with _isConnected := false, _radio := answeredRadio K d remoteId ps })
       else if firstByte p ≠ K._ACK then
         Except.ok (K.RC_ERROR_BAD_DATA,
           { d with _isConnected := false, _radio := answeredRadio K d remoteId ps })
       else connectConfirm K { d with _isConnected := false } (answeredRadio K d remoteId ps)
         remoteId) := by
  have ha' := ha
  simp only [List.headD_eq_head?_getD] at ha'
  unfold DeviceProtocol.connect
  simp only []
  rw [force_send_sent _ _ _ _ (by simpa [flush_buffer, RF24.stopListening, RF24.openReadingPipe,
    RF24.openWritingPipe, apply_settings, RF24.setPALevel, RF24.emit] using hf)]
  simp only [wait_eq]
  simp [flush_buffer, RF24.stopListening, RF24.startListening, RF24.openReadingPipe,
    RF24.openWritingPipe, apply_settings, RF24.setPALevel, RF24.emit, connectOpening,
    connectAnswered, pendingOf, laterOf, ha', RF24.read, byteOf_read, firstByte, answeredRadio]

theorem connect_lost_eq (K : RCGlobal) (d : DeviceProtocol) (remoteId : List Nat)
    (hf : d._radio.forced.head? = some true) (ha : d._radio.arrivals.headD [] = []) :
    d.connect K remoteId = Except.ok (K.RC_ERROR_LOST_CONNECTION,
      { d with _isConnected := false,
               _radio := { d._radio with
                 rx := [], arrivals := d._radio.arrivals.tail, forced := d._radio.forced.tail,
                 listening := true, paLevel := PALevel.RF24_PA_LOW,
                 log := d._radio.log ++ (connectOpening K d remoteId ++
                   [Event.force_send d._deviceId 5 K.RC_TIMEOUT true, Event.startListening,
                    Event.wait_till_available K.RC_CONNECT_TIMEOUT false]) } }) := by
  have ha' := ha
  simp only [List.headD_eq_head?_getD] at ha'
  unfold DeviceProtocol.connect
  simp only []
  rw [force_send_sent _ _ _ _ (by simpa [flush_buffer, RF24.stopListening, RF24.openReadingPipe,
    RF24.openWritingPipe, apply_settings, RF24.setPALevel, RF24.emit] using hf)]
  simp only [wait_eq]
  simp [flush_buffer, RF24.stopListening, RF24.startListening, RF24.openReadingPipe,
    RF24.openWritingPipe, apply_settings, RF24.setPALevel, RF24.emit, connectOpening,
    pendingOf, laterOf, ha']

theorem connectConfirm_expired (K : RCGlobal) (d : DeviceProtocol) (r : RF24)
    (remoteId : List Nat) (h : pendingOf r.rx r.arrivals = []) :
    ∃ r', connectConfirm K d r remoteId =
        Except.ok (K.RC_ERROR_LOST_CONNECTION, { d with _radio := r' }) ∧
      r'.listening = false := by
  unfold connectConfirm
  simp only []
  split_ifs
  · rw [awaitTest_expired K _ (by simpa [RF24.writeAckPayload, RF24.startListening,
      RF24.setPALevel, apply_settings, RF24.emit] using h)]
    exact ⟨_, rfl, rfl⟩
  · rw [awaitTest_expired K _ (by simpa [RF24.startListening,
      RF24.setPALevel, apply_settings, RF24.emit] using h)]
    exact ⟨_, rfl, rfl⟩
  · rw [awaitTest_expired K _ (by simpa [RF24.startListening,
      RF24.setPALevel, apply_settings, RF24.emit] using h)]
    exact ⟨_, rfl, rfl⟩

theorem connectConfirm_mismatch (K : RCGlobal) (d : DeviceProtocol) (r : RF24)
    (remoteId : List Nat) (t : Payload) (ts : List Payload)
    (h : pendingOf r.rx r.arrivals = t :: ts) (hb : firstByte t ≠ K._TEST) :
    ∃ r', connectConfirm K d r remoteId =
        Except.ok (K.RC_ERROR_BAD_DATA, { d with _radio := r' }) ∧
      r'.listening = false := by
  unfold connectConfirm
  simp only []
  split_ifs
  · rw [awaitTest_mismatch K _ t ts (by simpa [RF24.writeAckPayload, RF24.startListening,
      RF24.setPALevel, apply_settings, RF24.emit] using h) hb]
    exact ⟨_, rfl, rfl⟩
  · rw [awaitTest_mismatch K _ t ts (by simpa [RF24.startListening,
      RF24.setPALevel, apply_settings, RF24.emit] using h) hb]
    exact ⟨_, rfl, rfl⟩
  · rw [awaitTest_mismatch K _ t ts (by simpa [RF24.startListening,
      RF24.setPALevel, apply_settings, RF24.emit] using h) hb]
    exact ⟨_, rfl, rfl⟩

theorem connectConfirm_match (K : RCGlobal) (d : DeviceProtocol) (r : RF24)
    (remoteId : List Nat) (t : Payload) (ts : List Payload)
    (hd : d._remoteId.length = 5) (hs : 5 ≤ remoteId.length)
    (h : pendingOf r.rx r.arrivals = t :: ts) (hb : firstByte t = K._TEST) :
    ∃ r', connectConfirm K d r remoteId =
        Except.ok (0, { d with _isConnected := true, _radio := r',
                               _remoteId := remoteId.take 5 }) ∧
      r'.listening = true ∧ r'.paLevel = PALevel.RF24_PA_HIGH ∧
      (d._settings.getEnableAck = true → d._settings.getEnableAckPayload = true →
        r'.log = r.log ++ (connectRaised d ++
          [Event.writeAckPayload 1 [K._TEST] 1,
           Event.wait_till_available K.RC_CONNECT_TIMEOUT true, Event.read 1])) ∧
      (d._settings.getEnableAck = true → d._settings.getEnableAckPayload = false →
        r'.log = r.log ++ (connectRaised d ++
          [Event.wait_till_available K.RC_CONNECT_TIMEOUT true, Event.read 1])) ∧
      (d._settings.getEnableAck = false →
        r'.log = r.log ++ (connectRaised d ++
          [Event.wait_till_available K.RC_CONNECT_TIMEOUT true, Event.read 1,
           Event.stopListening, Event.delay 200,
           Event.write [K._TEST] 1 (r.acks.headD false), Event.startListening])) := by
  unfold connectConfirm
  simp only []
  split_ifs with h1 h2
  · rw [awaitTest_match K _ t ts (by simpa [RF24.writeAckPayload, RF24.startListening,
      RF24.setPALevel, apply_settings, RF24.emit] using h) hb]
    refine ⟨_, connectDone_ok d _ remoteId hd hs, ?_⟩
    simp [h1, h2, connectRaised, RF24.writeAckPayload, RF24.startListening,
      RF24.setPALevel, apply_settings, RF24.emit]
  · rw [awaitTest_match K _ t ts (by simpa [RF24.startListening,
      RF24.setPALevel, apply_settings, RF24.emit] using h) hb]
    refine ⟨_, connectDone_ok d _ remoteId hd hs, ?_⟩
    simp [h1, h2, connectRaised, RF24.startListening,
      RF24.setPALevel, apply_settings, RF24.emit]
  · rw [awaitTest_match K _ t ts (by simpa [RF24.startListening,
      RF24.setPALevel, apply_settings, RF24.emit] using h) hb]
    refine ⟨_, connectDone_ok d _ remoteId hd hs, ?_⟩
    rcases hacks : r.acks with _ | ⟨a, rest⟩ <;>
    simp [h1, connectRaised, RF24.startListening, RF24.stopListening, delay, RF24.write,
      RF24.setPALevel, apply_settings, RF24.emit, hacks]

theorem handshakeOnly_intro (K : RCGlobal) (d : DeviceProtocol) (remoteId : List Nat)
    (r : RF24) (rest : List Event)
    (hpa : r.paLevel = PALevel.RF24_PA_LOW)
    (hlog : r.log = d._radio.log ++ (connectOpening K d remoteId ++ rest))
    (happ : appliedSettings rest = []) (hpow : powerLevels rest = []) :
    HandshakeOnly K d { d with _isConnected := false, _radio := r } remoteId rest := by
  refine ⟨rfl, rfl, hpa, hlog, ?_, ?_⟩
  · simp only [appliedSettings, List.filterMap_append] at happ ⊢
    rw [happ]
    simp [connectOpening]
  · simp only [powerLevels, List.filterMap_append] at hpow ⊢
    rw [hpow]
    simp [connectOpening]

/-- Claim C7 (steps 1-2 of `connect`): if the forced send of the device identifier does not
get through, the result is `RC_ERROR_TIMEOUT`; otherwise, if nothing arrives within the
connect timeout, `RC_ERROR_LOST_CONNECTION`; otherwise, with `p` the first payload that
arrives, a first byte equal to `_NACK` gives `RC_ERROR_CONNECTION_REFUSED` and a first byte
that is neither `_NACK` nor `_ACK` gives `RC_ERROR_BAD_DATA`. In all four cases
(`HandshakeOnly`) the session is disconnected, the stored peer address is unchanged, the
radio is at low power, and the calls made are the opening ones followed by those listed:
only the pairing settings and the low power level were applied. -/
theorem connect_handshake_errors (K : RCGlobal) (d : DeviceProtocol) (remoteId : List Nat) :
    (d._radio.forced.head? ≠ some true →
      ∃ d', d.connect K remoteId = Except.ok (K.RC_ERROR_TIMEOUT, d') ∧
        HandshakeOnly K d d' remoteId [Event.force_send d._deviceId 5 K.RC_TIMEOUT false]) ∧
    (d._radio.forced.head? = some true →
      (d._radio.arrivals.headD [] = [] →
        ∃ d', d.connect K remoteId = Except.ok (K.RC_ERROR_LOST_CONNECTION, d') ∧
          HandshakeOnly K d d' remoteId
            [Event.force_send d._deviceId 5 K.RC_TIMEOUT true, Event.startListening,
             Event.wait_till_available K.RC_CONNECT_TIMEOUT false]) ∧
      (∀ p ps, d._radio.arrivals.headD [] = p :: ps →
        (firstByte p = K._NACK →
          ∃ d', d.connect K remoteId = Except.ok (K.RC_ERROR_CONNECTION_REFUSED, d') ∧
            HandshakeOnly K d d' remoteId (connectAnswered K d)) ∧
        (firstByte p ≠ K._NACK → firstByte p ≠ K._ACK →
          ∃ d', d.connect K remoteId = Except.ok (K.RC_ERROR_BAD_DATA, d') ∧
            HandshakeOnly K d d' remoteId (connectAnswered K d)))) := by
  refine ⟨fun hf => ?_, fun hf => ⟨fun ha => ?_, fun p ps ha => ⟨fun hb => ?_, fun hb1 hb2 => ?_⟩⟩⟩
  · exact ⟨_, connect_timeout_eq K d remoteId hf,
      handshakeOnly_intro K d remoteId _ _ rfl rfl (by simp [appliedSettings])
        (by simp [powerLevels])⟩
  · exact ⟨_, connect_lost_eq K d remoteId hf ha,
      handshakeOnly_intro K d remoteId _ _ rfl rfl (by simp [appliedSettings])
        (by simp [powerLevels])⟩
  · refine ⟨_, ?_, handshakeOnly_intro K d remoteId (answeredRadio K d remoteId ps)
      (connectAnswered K d) rfl rfl
      (by simp [appliedSettings, connectAnswered]) (by simp [powerLevels, connectAnswered])⟩
    rw [connect_answered_eq K d remoteId p ps hf ha]
    simp only [hb, if_true]
  · refine ⟨_, ?_, handshakeOnly_intro K d remoteId (answeredRadio K d remoteId ps)
      (connectAnswered K d) rfl rfl
      (by simp [appliedSettings, connectAnswered]) (by simp [powerLevels, connectAnswered])⟩
    rw [connect_answered_eq K d remoteId p ps hf ha]
    simp only [hb1, hb2, if_false, if_true, ne_eq, not_false_eq_true]

/-- Claim C8 (confirmation round of `connect`, failures): once the forced send got through
and the peer has answered ACK (`p` being the answer, `ps` what came in behind it), in every
negotiated mode: if the wait for the test byte finds nothing, the result is
`RC_ERROR_LOST_CONNECTION`; if the payload it finds starts with a byte other than `_TEST`,
the result is `RC_ERROR_BAD_DATA`. In both cases the session is disconnected, the stored
peer address is unchanged and the radio is not listening. The settings of the session are
arbitrary, which covers the three modes. -/
theorem connect_confirmation_errors (K : RCGlobal) (d : DeviceProtocol) (remoteId : List Nat)
    (p : Payload) (ps : List Payload) (hne : K._ACK ≠ K._NACK)
    (hf : d._radio.forced.head? = some true)
    (ha : d._radio.arrivals.headD [] = p :: ps) (hb : firstByte p = K._ACK) :
    (pendingOf ps d._radio.arrivals.tail = [] →
      ∃ d', d.connect K remoteId = Except.ok (K.RC_ERROR_LOST_CONNECTION, d') ∧
        d'.isConnected = false ∧ d'._remoteId = d._remoteId ∧ d'._radio.listening = false) ∧
    (∀ t ts, pendingOf ps d._radio.arrivals.tail = t :: ts → firstByte t ≠ K._TEST →
      ∃ d', d.connect K remoteId = Except.ok (K.RC_ERROR_BAD_DATA, d') ∧
        d'.isConnected = false ∧ d'._remoteId = d._remoteId ∧ d'._radio.listening = false) := by
  have hc : d.connect K remoteId =
      connectConfirm K { d with _isConnected := false } (answeredRadio K d remoteId ps)
        remoteId := by
    rw [connect_answered_eq K d remoteId p ps hf ha]
    simp [hb, hne]
  refine ⟨fun h => ?_, fun t ts h hb2 => ?_⟩
  · obtain ⟨r', h1, h2⟩ := connectConfirm_expired K { d with _isConnected := false }
      (answeredRadio K d remoteId ps) remoteId h
    exact ⟨_, hc.trans h1, rfl, rfl, h2⟩
  · obtain ⟨r', h1, h2⟩ := connectConfirm_mismatch K { d with _isConnected := false }
      (answeredRadio K d remoteId ps) remoteId t ts h hb2
    exact ⟨_, hc.trans h1, rfl, rfl, h2⟩

/-- Claim C9 (confirmation round of a successful `connect`): with the peer's ACK and then
the matching test byte received, `connect` returns 0 and the trace of the call is, by
negotiated mode: with ack and ack payload, the test byte is attached as an acknowledgement
payload before the wait and nothing is written; with ack and no ack payload, only the wait
and the read; with ack disabled, the wait and the read, and after them one `write` of the
test byte between `stopListening` and `startListening`, with no acknowledgement payload. -/
theorem connect_confirmation_transmits (K : RCGlobal) (d : DeviceProtocol)
    (remoteId : List Nat) (p : Payload) (ps : List Payload) (t : Payload) (ts : List Payload)
    (hne : K._ACK ≠ K._NACK) (hd : d._remoteId.length = 5) (hs : 5 ≤ remoteId.length)
    (hf : d._radio.forced.head? = some true)
    (ha : d._radio.arrivals.headD [] = p :: ps) (hb : firstByte p = K._ACK)
    (hq : pendingOf ps d._radio.arrivals.tail = t :: ts) (ht : firstByte t = K._TEST) :
    ∃ d', d.connect K remoteId = Except.ok (0, d') ∧ d'.isConnected = true ∧
      (d._settings.getEnableAck = true → d._settings.getEnableAckPayload = true →
        d'._radio.log = d._radio.log ++ (connectOpening K d remoteId ++ connectAnswered K d ++
          connectRaised d ++
          [Event.writeAckPayload 1 [K._TEST] 1,
           Event.wait_till_available K.RC_CONNECT_TIMEOUT true, Event.read 1])) ∧
      (d._settings.getEnableAck = true → d._settings.getEnableAckPayload = false →
        d'._radio.log = d._radio.log ++ (connectOpening K d remoteId ++ connectAnswered K d ++
          connectRaised d ++
          [Event.wait_till_available K.RC_CONNECT_TIMEOUT true, Event.read 1])) ∧
      (d._settings.getEnableAck = false →
        d'._radio.log = d._radio.log ++ (connectOpening K d remoteId ++ connectAnswered K d ++
          connectRaised d ++
          [Event.wait_till_available K.RC_CONNECT_TIMEOUT true, Event.read 1,
           Event.stopListening, Event.delay 200,
           Event.write [K._TEST] 1 (d._radio.acks.headD false), Event.startListening])) := by
  have hc : d.connect K remoteId =
      connectConfirm K { d with _isConnected := false } (answeredRadio K d remoteId ps)
        remoteId := by
    rw [connect_answered_eq K d remoteId p ps hf ha]
    simp [hb, hne]
  obtain ⟨r', h1, -, -, m1, m2, m3⟩ := connectConfirm_match K { d with _isConnected := false }
    (answeredRadio K d remoteId ps) remoteId t ts hd hs hq ht
  refine ⟨_, hc.trans h1, rfl, fun e1 e2 => ?_, fun e1 e2 => ?_, fun e1 => ?_⟩
  · have := m1 e1 e2
    simpa [answeredRadio, connectRaised, List.append_assoc] using this
  · have := m2 e1 e2
    simpa [answeredRadio, connectRaised, List.append_assoc] using this
  · have := m3 e1
    simpa [answeredRadio, connectRaised, List.append_assoc] using this

/-- Claim C21: with acknowledgement mode disabled, once the forced send got through, the
peer has answered ACK and the peer's test byte has been received and matched, `connect`
returns 0 with the session connected and the peer address recorded, whatever the radio
reports for the explicit `write` of the test byte back: `sent` is that outcome, and the
conclusion is the same for `sent = false` (not delivered) as for `sent = true`. The write is
the last transmission of the trace, which ends with `startListening`. -/
theorem connect_ignores_reply_outcome (K : RCGlobal) (d : DeviceProtocol)
    (remoteId : List Nat) (p : Payload) (ps : List Payload) (t : Payload) (ts : List Payload)
    (sent : Bool)
    (hne : K._ACK ≠ K._NACK) (hd : d._remoteId.length = 5) (hs : 5 ≤ remoteId.length)
    (hack : d._settings.getEnableAck = false)
    (hf : d._radio.forced.head? = some true)
    (ha : d._radio.arrivals.headD [] = p :: ps) (hb : firstByte p = K._ACK)
    (hq : pendingOf ps d._radio.arrivals.tail = t :: ts) (ht : firstByte t = K._TEST)
    (hsent : d._radio.acks.headD false = sent) :
    ∃ d', d.connect K remoteId = Except.ok (0, d') ∧
      d'.isConnected = true ∧ d'._remoteId = remoteId.take 5 ∧
      d'._radio.listening = true ∧
      d'._radio.log = d._radio.log ++ (connectOpening K d remoteId ++ connectAnswered K d ++
        connectRaised d ++
        [Event.wait_till_available K.RC_CONNECT_TIMEOUT true, Event.read 1,
         Event.stopListening, Event.delay 200,
         Event.write [K._TEST] 1 sent, Event.startListening]) := by
  have hc : d.connect K remoteId =
      connectConfirm K { d with _isConnected := false } (answeredRadio K d remoteId ps)
        remoteId := by
    rw [connect_answered_eq K d remoteId p ps hf ha]
    simp [hb, hne]
  obtain ⟨r', h1, hl, -, -, -, m3⟩ := connectConfirm_match K { d with _isConnected := false }
    (answeredRadio K d remoteId ps) remoteId t ts hd hs hq ht
  refine ⟨_, hc.trans h1, rfl, rfl, hl, ?_⟩
  have := m3 hack
  rw [← hsent]
  simpa [answeredRadio, connectRaised, List.append_assoc] using this

/-! ## `update` -/

theorem check_packet_empty (K : RCGlobal) (d : DeviceProtocol) (buf : List Nat) (size : Nat)
    (tel : Option (List Nat)) (tsize : Nat)
    (hc : d._isConnected = true) (hrx : d._radio.rx = []) :
    d.check_packet K buf size tel tsize =
      (0, buf, { d with _radio := { d._radio with
                   log := d._radio.log ++ [Event.available false] } }) := by
  simp [DeviceProtocol.check_packet, DeviceProtocol.isConnected, hc, RF24.available, hrx,
    RF24.emit]

/-- A call of `check_packet` on a connected session with a payload buffered. -/
theorem check_packet_cons (K : RCGlobal) (d : DeviceProtocol) (buf : List Nat) (size : Nat)
    (tel : Option (List Nat)) (tsize : Nat) (q : Payload) (rest : List Payload)
    (hc : d._isConnected = true) (hrx : d._radio.rx = q :: rest) :
    d.check_packet K buf size tel tsize =
      (1, q.data.take size ++ buf.drop (min size q.data.length),
       { d with _radio := { d._radio with
           rx := rest,
           log := d._radio.log ++ ([Event.available true, Event.read size] ++
             (match tel with
              | some t => if d._settings.getEnableAckPayload then
                  [Event.writeAckPayload q.pipe t tsize] else []
              | none => [])) } }) := by
  rcases tel with _ | t
  · simp [DeviceProtocol.check_packet, DeviceProtocol.isConnected, hc, RF24.available, hrx,
      RF24.emit, RF24.read]
  · by_cases hp : d._settings.getEnableAckPayload = true
    · simp [DeviceProtocol.check_packet, DeviceProtocol.isConnected, hc, RF24.available, hrx,
        RF24.emit, RF24.read, hp, RF24.writeAckPayload]
    · simp [DeviceProtocol.check_packet, DeviceProtocol.isConnected, hc, RF24.available, hrx,
        RF24.emit, RF24.read, hp, RF24.writeAckPayload]

theorem updateLoop_stop (K : RCGlobal) (fuel : Nat) (ps status : Int) (pk ch : List Nat)
    (d : DeviceProtocol) (h : ps ≠ 1) :
    updateLoop K fuel ps status pk ch d =
      Except.ok (if ps < 0 then ps else status, ch, d) := by
  cases fuel <;> simp [updateLoop, h]

theorem read_full (data buf : List Nat) (size : Nat) (h1 : data.length = size)
    (h2 : buf.length = size) :
    data.take size ++ buf.drop (min size data.length) = data := by
  subst h1
  simp [h2]

theorem decodeChannels_eq (packet : List Nat) (n : Nat) (channels : List Nat)
    (hp : 1 + 2 * n ≤ packet.length) (hc : n ≤ channels.length) :
    decodeChannels n packet channels =
      Except.ok (decodedValues n packet ++ channels.drop n) := by
  induction n with
  | zero => simp [decodeChannels, decodedValues, pure, Except.pure]
  | succ n ih =>
    have h1 := ih (by omega) (by omega)
    unfold decodeChannels at h1 ⊢
    rw [List.range_succ, List.foldlM_append, h1]
    have hi1 : n * 2 + 1 < packet.length := by omega
    have hi2 : n * 2 + 2 < packet.length := by omega
    have hlen : (decodedValues n packet).length = n := by simp [decodedValues]
    have hn : n < (decodedValues n packet ++ List.drop n channels).length := by
      simp [hlen]; omega
    have hdrop : List.drop n channels = channels[n] :: List.drop (n + 1) channels :=
      List.drop_eq_getElem_cons (by omega)
    simp only [bind, Except.bind, List.foldlM_cons, List.foldlM_nil,
      List.getElem?_eq_getElem hi1, List.getElem?_eq_getElem hi2, hn, if_true, pure,
      Except.pure]
    rw [List.set_append_right _ _ (by omega), hlen, Nat.sub_self]
    simp only [decodedValues, List.range_succ, List.getD_eq_getElem?_getD,
      List.getElem?_eq_getElem hi1, List.getElem?_eq_getElem hi2, List.map_append,
      List.map_cons, List.map_nil, Option.getD_some, List.append_assoc, List.singleton_append]
    rw [hdrop]
    rfl

theorem sendAck_eq (K : RCGlobal) (r : RF24) (settle : Nat) :
    sendAck K r settle =
      { r with acks := r.acks.tail, listening := true,
               log := r.log ++ [Event.stopListening, Event.delay settle,
                 Event.write [K._ACK] 1 (r.acks.headD false), Event.startListening] } := by
  rcases r with ⟨rx, arr, acks, forced, li, pa, log⟩
  rcases acks with _ | ⟨a, rest⟩ <;>
    simp [sendAck, RF24.stopListening, delay, RF24.write, RF24.startListening, RF24.emit]

/-- What the dispatch on one packet does, for a packet that holds the tag byte and the
channel bytes. -/
theorem handlePacket_spec (K : RCGlobal) (d : DeviceProtocol) (status : Int)
    (pk ch : List Nat)
    (hp : 1 + 2 * d._settings.getNumChannels ≤ pk.length)
    (hc : d._settings.getNumChannels ≤ ch.length) :
    ∃ r', handlePacket K d status pk ch =
        Except.ok (if isChannelsPacket K pk then 1 else status,
          if isChannelsPacket K pk then
            decodedValues d._settings.getNumChannels pk ++ ch.drop d._settings.getNumChannels
          else ch,
          { d with _isConnected := d._isConnected && !isDisconnectPacket K pk, _radio := r' }) ∧
      r'.rx = d._radio.rx ∧
      ackPayloads r'.log = ackPayloads d._radio.log ∧
      reads r'.log = reads d._radio.log ∧
      (∃ es, r'.log = d._radio.log ++ es ∧ (∀ e ∈ transmissions es, IsAckWrite K e) ∧
        (d._settings.getEnableAck = true → transmissions es = [])) := by
  have h0 : pk[0]? = some (pk.headD 0) := by
    rcases pk with _ | ⟨b, t⟩
    · simp at hp
    · simp
  obtain ⟨did, rid, conn, s, r⟩ := d
  simp only [] at hp hc ⊢
  unfold handlePacket
  rw [h0]
  simp only []
  by_cases h1 : isChannelsPacket K pk = true
  · have h1' : (pk.headD 0 &&& 0xF0 == K._PACKET_CHANNELS) = true := h1
    have hD : isDisconnectPacket K pk = false := by simp [isDisconnectPacket, h1]
    rw [if_pos h1', decodeChannels_eq pk _ ch hp hc]
    exact ⟨r, by simp [h1, hD], rfl, rfl, rfl, [], by simp, by simp [transmissions],
      by simp [transmissions]⟩
  · have h1' : ¬ (pk.headD 0 &&& 0xF0 == K._PACKET_CHANNELS) = true := h1
    rw [if_neg h1']
    simp only [Bool.not_eq_true] at h1
    by_cases h2 : (pk.headD 0 == K._PACKET_DISCONNECT) = true
    · have hD : isDisconnectPacket K pk = true := by
        simpa [isDisconnectPacket, h1] using h2
      rw [if_pos h2]
      by_cases ha : s.getEnableAck = true
      · exact ⟨r, by simp [h1, hD, ha], rfl, rfl, rfl, [], by simp, by simp [transmissions],
          by simp [transmissions]⟩
      · refine ⟨sendAck K r 50, by simp [h1, hD, ha], ?_, ?_, ?_, _, by rw [sendAck_eq], ?_, ?_⟩
        · simp [sendAck_eq]
        · simp [sendAck_eq, ackPayloads, List.filter_append]
        · simp [sendAck_eq, reads, List.filter_append]
        · simp [transmissions, IsAckWrite]
        · intro h; exact absurd h ha
    · have hD : isDisconnectPacket K pk = false := by
        simpa [isDisconnectPacket, h1] using h2
      rw [if_neg h2]
      by_cases h3 : (pk.headD 0 == K._PACKET_RECONNECT) = true
      · rw [if_pos h3]
        by_cases ha : s.getEnableAck = true
        · exact ⟨r, by simp [h1, hD, ha], rfl, rfl, rfl, [], by simp, by simp [transmissions],
            by simp [transmissions]⟩
        · refine ⟨sendAck K r 20, by simp [h1, hD, ha], ?_, ?_, ?_, _, by rw [sendAck_eq], ?_, ?_⟩
          · simp [sendAck_eq]
          · simp [sendAck_eq, ackPayloads, List.filter_append]
          · simp [sendAck_eq, reads, List.filter_append]
          · simp [transmissions, IsAckWrite]
          · intro h; exact absurd h ha
      · rw [if_neg h3]
        exact ⟨r, by simp [h1, hD], rfl, rfl, rfl, [], by simp, by simp [transmissions],
          by simp [transmissions]⟩

theorem check_packet2_disconnected (K : RCGlobal) (d : DeviceProtocol) (buf : List Nat)
    (size : Nat) (hc : d._isConnected = false) :
    d.check_packet2 K buf size = (K.RC_ERROR_NOT_CONNECTED, buf, d) := by
  simp [DeviceProtocol.check_packet2, DeviceProtocol.check_packet, DeviceProtocol.isConnected, hc]

theorem drainResult_cons (K : RCGlobal) (status : Int) (cur : Payload) (read : List Payload)
    (hD : isDisconnectPacket K cur.data = false) :
    drainResult K status (cur :: read) =
      drainResult K (if isChannelsPacket K cur.data then 1 else status) read := by
  by_cases h1 : isChannelsPacket K cur.data = true
  · by_cases h2 : (read.any fun p => isChannelsPacket K p.data) = true <;>
      simp [drainResult, hD, h1, h2]
  · simp [drainResult, hD, h1]

theorem handlePacket_fields (K : RCGlobal) (d : DeviceProtocol) (status : Int)
    (pk ch : List Nat)
    (hp : 1 + 2 * d._settings.getNumChannels ≤ pk.length)
    (hc : d._settings.getNumChannels ≤ ch.length) :
    ∃ d1, handlePacket K d status pk ch =
        Except.ok (if isChannelsPacket K pk then 1 else status,
          if isChannelsPacket K pk then
            decodedValues d._settings.getNumChannels pk ++ ch.drop d._settings.getNumChannels
          else ch, d1) ∧
      d1._isConnected = (d._isConnected && !isDisconnectPacket K pk) ∧
      d1._remoteId = d._remoteId ∧ d1._settings = d._settings ∧ d1._deviceId = d._deviceId ∧
      d1._radio.rx = d._radio.rx ∧
      ackPayloads d1._radio.log = ackPayloads d._radio.log ∧
      reads d1._radio.log = reads d._radio.log ∧
      (∃ es, d1._radio.log = d._radio.log ++ es ∧ (∀ e ∈ transmissions es, IsAckWrite K e) ∧
        (d._settings.getEnableAck = true → transmissions es = [])) := by
  obtain ⟨r', hh, h1, h2, h3, h4⟩ := handlePacket_spec K d status pk ch hp hc
  exact ⟨_, hh, rfl, rfl, rfl, rfl, h1, h2, h3, h4⟩

/-- The loop of `update`, entered with the packet `cur` just read and `rest` still buffered. -/
theorem updateLoop_spec (K : RCGlobal) (hNC : K.RC_ERROR_NOT_CONNECTED < 0) :
    ∀ (rest : List Payload) (fuel : Nat) (status : Int) (cur : Payload) (ch : List Nat)
      (d : DeviceProtocol),
      d._isConnected = true → d._radio.rx = rest → rest.length < fuel →
      cur.data.length = d._settings.getPayloadSize →
      1 + 2 * d._settings.getNumChannels ≤ d._settings.getPayloadSize →
      d._settings.getNumChannels ≤ ch.length →
      (∀ p ∈ rest, p.data.length = d._settings.getPayloadSize) →
      ∃ d', updateLoop K fuel 1 status cur.data ch d =
          Except.ok (drainResult K status (handled K (cur :: rest)),
            channelsAfter K d._settings.getNumChannels (handled K (cur :: rest)) ch, d') ∧
        d'._radio.rx = unhandled K (cur :: rest) ∧
        d'._isConnected = !(handled K (cur :: rest)).any (fun p => isDisconnectPacket K p.data) ∧
        d'._remoteId = d._remoteId ∧ d'._settings = d._settings ∧
        d'._deviceId = d._deviceId ∧
        ackPayloads d'._radio.log = ackPayloads d._radio.log ∧
        (reads d'._radio.log).length + 1 =
          (reads d._radio.log).length + (handled K (cur :: rest)).length ∧
        (∃ es, d'._radio.log = d._radio.log ++ es ∧
          (∀ e ∈ transmissions es, IsAckWrite K e) ∧
          (d._settings.getEnableAck = true → transmissions es = [])) := by
  intro rest
  induction rest with
  | nil =>
    intro fuel status cur ch d hc hrx hfuel hcur hsize hch _
    obtain ⟨f, rfl⟩ : ∃ f, fuel = f + 1 := ⟨fuel - 1, by simp at hfuel; omega⟩
    obtain ⟨d1, hh, g1, g2, g3, g4, hr1, hr2, hr3, es, hes1, hes2, hes3⟩ :=
      handlePacket_fields K d status cur.data ch (by omega) hch
    simp only [updateLoop, beq_self_eq_true, if_true, hh]
    by_cases hD : isDisconnectPacket K cur.data = true
    · rw [check_packet2_disconnected K _ _ _ (by simp [g1, hc, hD])]
      rw [updateLoop_stop K f _ _ _ _ _ (by omega)]
      have hnc : isChannelsPacket K cur.data = false := by
        simp [isDisconnectPacket] at hD; simp [hD.1]
      refine ⟨d1, ?_, ?_, ?_, g2, g3, g4, hr2, ?_, es, hes1, hes2, hes3⟩
      · simp [handled, hD, drainResult, hNC, channelsAfter, hnc]
      · simp [handled, unhandled, hD, hr1, hrx]
      · simp [handled, hD, hc, g1]
      · simp [handled, hD, hr3]
    · simp only [Bool.not_eq_true] at hD
      simp only [DeviceProtocol.check_packet2]
      rw [check_packet_empty K _ _ _ _ _ (by simp [g1, hc, hD]) (by simp [hr1, hrx])]
      rw [updateLoop_stop K f _ _ _ _ _ (by omega)]
      refine ⟨{ d1 with _radio := { d1._radio with
          log := d1._radio.log ++ [Event.available false] } }, ?_, ?_, ?_, g2, g3, g4, ?_, ?_,
        es ++ [Event.available false], ?_, ?_, ?_⟩
      · simp [handled, hD, drainResult, channelsAfter]
      · simp [handled, unhandled, hD, hr1, hrx]
      · simp [handled, hD, hc, g1]
      · simp [ackPayloads, List.filter_append] at hr2 ⊢; exact hr2
      · simp [handled, hD, reads, List.filter_append] at hr3 ⊢; rw [hr3]
      · simp [hes1]
      · intro e he; apply hes2; simpa [transmissions, List.filter_append] using he
      · intro h; simpa [transmissions, List.filter_append] using hes3 h
  | cons q rest' ih =>
    intro fuel status cur ch d hc hrx hfuel hcur hsize hch hall
    obtain ⟨f, rfl⟩ : ∃ f, fuel = f + 1 := ⟨fuel - 1, by simp at hfuel; omega⟩
    obtain ⟨d1, hh, g1, g2, g3, g4, hr1, hr2, hr3, es, hes1, hes2, hes3⟩ :=
      handlePacket_fields K d status cur.data ch (by omega) hch
    simp only [updateLoop, beq_self_eq_true, if_true, hh]
    by_cases hD : isDisconnectPacket K cur.data = true
    · rw [check_packet2_disconnected K _ _ _ (by simp [g1, hc, hD])]
      rw [updateLoop_stop K f _ _ _ _ _ (by omega)]
      have hnc : isChannelsPacket K cur.data = false := by
        simp [isDisconnectPacket] at hD; simp [hD.1]
      refine ⟨d1, ?_, ?_, ?_, g2, g3, g4, hr2, ?_, es, hes1, hes2, hes3⟩
      · simp [handled, hD, drainResult, hNC, channelsAfter, hnc]
      · simp [handled, unhandled, hD, hr1, hrx]
      · simp [handled, hD, hc, g1]
      · simp [handled, hD, hr3]
    · simp only [Bool.not_eq_true] at hD
      have hq : q.data.length = d._settings.getPayloadSize := hall q (by simp)
      simp only [DeviceProtocol.check_packet2]
      rw [check_packet_cons K _ _ _ _ _ q rest' (by simp [g1, hc, hD]) (by simp [hr1, hrx])]
      simp only [g3, read_full q.data cur.data _ hq hcur]
      have hlen : d._settings.getNumChannels ≤
          (if isChannelsPacket K cur.data then
            decodedValues d._settings.getNumChannels cur.data ++
              ch.drop d._settings.getNumChannels
           else ch).length := by
        split_ifs
        · simp [decodedValues]
        · exact hch
      obtain ⟨d', h1, h2, h3, h4, h5, h6, h7, h8, es', hes1', hes2', hes3'⟩ :=
        ih f (if isChannelsPacket K cur.data then 1 else status) q
          (if isChannelsPacket K cur.data then
            decodedValues d._settings.getNumChannels cur.data ++
              ch.drop d._settings.getNumChannels
           else ch)
          { d1 with _radio := { d1._radio with
              rx := rest',
              log := d1._radio.log ++ ([Event.available true,
                Event.read d._settings.getPayloadSize] ++ []) } }
          (by simp [g1, hc, hD])
          rfl (by simp at hfuel ⊢; omega) (by simpa [g3] using hq) (by simpa [g3] using hsize)
          (by simpa [g3] using hlen)
          (fun p hp => by simpa [g3] using hall p (by simp [hp]))
      simp only [g3] at h1 h5 hes3'
      refine ⟨d', ?_, ?_, ?_, h4.trans g2, h5, h6.trans g4, ?_, ?_,
        es ++ [Event.available true, Event.read d._settings.getPayloadSize] ++ es', ?_, ?_, ?_⟩
      · rw [h1]
        have e1 : handled K (cur :: q :: rest') = cur :: handled K (q :: rest') := by
          simp [handled, hD]
        rw [e1, drainResult_cons K status cur _ hD]
        simp [channelsAfter]
      · rw [h2]; simp [unhandled, hD]
      · rw [h3]; simp [handled, hD]
      · rw [h7]; simp [ackPayloads, List.filter_append] at hr2 ⊢; exact hr2
      · have e1 : handled K (cur :: q :: rest') = cur :: handled K (q :: rest') := by
          simp [handled, hD]
        rw [e1]
        simp [reads, List.filter_append] at h8 hr3 ⊢
        rw [hr3] at h8
        omega
      · rw [hes1']; simp [hes1]
      · intro e he
        simp only [transmissions, List.filter_append, List.mem_append] at he
        rcases he with (he | he) | he
        · exact hes2 e he
        · simp at he
        · exact hes2' e he
      · intro h
        have a1 := hes3 h
        have a2 := hes3' h
        simp only [transmissions, List.filter_append] at a1 a2 ⊢
        simp [a1, a2]

/-- One call of `update` on a connected session, in closed form. -/
theorem update_spec (K : RCGlobal) (d : DeviceProtocol) (channels : List Nat)
    (telemetry : Option (List Nat)) (hNC : K.RC_ERROR_NOT_CONNECTED < 0)
    (hready : UpdateReady d channels) :
    ∃ d', d.update K channels telemetry =
        Except.ok (drainResult K 0 (handled K d._radio.rx),
          channelsAfter K d._settings.getNumChannels (handled K d._radio.rx) channels, d') ∧
      d'._radio.rx = unhandled K d._radio.rx ∧
      d'._isConnected = !(handled K d._radio.rx).any (fun p => isDisconnectPacket K p.data) ∧
      d'._remoteId = d._remoteId ∧ d'._settings = d._settings ∧ d'._deviceId = d._deviceId ∧
      ackPayloads d'._radio.log = ackPayloads d._radio.log ++ telemetryAcks d telemetry ∧
      (reads d'._radio.log).length =
        (reads d._radio.log).length + (handled K d._radio.rx).length ∧
      (∃ es, d'._radio.log = d._radio.log ++ es ∧
        (∀ e ∈ transmissions es, IsAckWrite K e) ∧
        (d._settings.getEnableAck = true → transmissions es = [])) := by
  obtain ⟨hc, hsize, hch, hall⟩ := hready
  have hc' : d._isConnected = true := hc
  rcases hrx : d._radio.rx with _ | ⟨p, rest⟩
  · refine ⟨{ d with _radio := { d._radio with
        log := d._radio.log ++ [Event.available false] } }, ?_, ?_, ?_, rfl, rfl, rfl, ?_, ?_,
      [Event.available false], rfl, by simp [transmissions], by simp [transmissions]⟩
    · simp only [DeviceProtocol.update, hc, Bool.not_true, Bool.false_eq_true, if_false]
      rw [check_packet_empty K d _ _ _ _ hc' hrx, updateLoop_stop K _ _ _ _ _ _ (by omega)]
      simp [handled, drainResult, channelsAfter]
    · simp [unhandled, hrx]
    · simp [handled, hc']
    · simp [telemetryAcks, hrx, ackPayloads, List.filter_append]
    · simp [handled, reads, List.filter_append]
  · have hp : p.data.length = d._settings.getPayloadSize := hall p (by simp [hrx])
    obtain ⟨L, hL⟩ : ∃ L : List Event, L =
        (match telemetry with
         | some t => if d._settings.getEnableAckPayload then
             [Event.writeAckPayload p.pipe t d._settings.getPayloadSize] else []
         | none => []) := ⟨_, rfl⟩
    have hLa : L.filter (fun e => match e with
        | Event.writeAckPayload _ _ _ => true
        | _ => false) = telemetryAcks d telemetry := by
      rw [hL]
      rcases telemetry with _ | t
      · simp [telemetryAcks, hrx]
      · by_cases hap : d._settings.getEnableAckPayload = true <;>
          simp [telemetryAcks, hrx, hap]
    have hLr : reads L = [] := by
      rw [hL]
      rcases telemetry with _ | t
      · simp [reads]
      · by_cases hap : d._settings.getEnableAckPayload = true <;> simp [reads, hap]
    have hLt : transmissions L = [] := by
      rw [hL]
      rcases telemetry with _ | t
      · simp [transmissions]
      · by_cases hap : d._settings.getEnableAckPayload = true <;> simp [transmissions, hap]
    obtain ⟨d', h1, h2, h3, h4, h5, h6, h7, h8, es, hes1, hes2, hes3⟩ :=
      updateLoop_spec K hNC rest (rest.length + 1 + 1) 0 p channels
        { d with _radio := { d._radio with
            rx := rest,
            log := d._radio.log ++ ([Event.available true,
              Event.read d._settings.getPayloadSize] ++ L) } }
        hc' rfl (by omega) hp hsize hch (fun q hq => hall q (by simp [hrx, hq]))
    simp only [] at h1 h4 h5 h6 h7 h8 hes1 hes3
    refine ⟨d', ?_, h2, h3, h4, h5, h6, ?_, ?_,
      [Event.available true, Event.read d._settings.getPayloadSize] ++ L ++ es, ?_, ?_, ?_⟩
    · simp only [DeviceProtocol.update, hc, Bool.not_true, Bool.false_eq_true, if_false]
      rw [check_packet_cons K d _ _ _ _ p rest hc' hrx, ← hL]
      simp only [read_full p.data _ _ hp (List.length_replicate _ _), hrx, List.length_cons]
      exact h1
    · rw [h7]
      simp only [ackPayloads, List.filter_append, hLa]
      simp
    · simp only [reads, List.filter_append] at h8 hLr ⊢
      rw [hLr] at h8
      simp at h8 ⊢
      omega
    · rw [hes1]
      simp only [List.append_assoc]
    · intro e he
      simp only [transmissions, List.filter_append, List.mem_append] at he hLt
      rcases he with (he | he) | he
      · simp at he
      · rw [hLt] at he; simp at he
      · exact hes2 e he
    · intro h
      have a := hes3 h
      simp only [transmissions, List.filter_append] at a hLt ⊢
      rw [a, hLt]
      simp

theorem read_getElem (data tail : List Nat) (size j x : Nat) (hj : j < size)
    (hx : data[j]? = some x) : (data.take size ++ tail)[j]? = some x := by
  have hlt : j < data.length := by
    rcases Nat.lt_or_ge j data.length with h | h
    · exact h
    · rw [List.getElem?_eq_none h] at hx; cases hx
  rw [List.getElem?_append_left (by simp; omega), List.getElem?_take_of_lt hj]
  exact hx

theorem read_length (data buf : List Nat) (size : Nat) (h : buf.length = size) :
    (data.take size ++ buf.drop (min size data.length)).length = size := by
  simp [h]

theorem updateLoop_step (K : RCGlobal) (fuel : Nat) (status : Int) (pk ch : List Nat)
    (d : DeviceProtocol) :
    updateLoop K (fuel + 1) 1 status pk ch d =
      (match handlePacket K d status pk ch with
       | Except.error e => Except.error e
       | Except.ok (status, channels, d) =>
         updateLoop K fuel (d.check_packet2 K pk d._settings.getPayloadSize).1 status
           (d.check_packet2 K pk d._settings.getPayloadSize).2.1 channels
           (d.check_packet2 K pk d._settings.getPayloadSize).2.2) := by
  simp only [updateLoop, beq_self_eq_true, if_true]

theorem headD_of_getElem (l : List Nat) (x : Nat) (h : l[0]? = some x) : l.headD 0 = x := by
  cases l <;> simp_all

theorem decodedValues_eq (n : Nat) (pk vs : List Nat) (hvs : vs.length = n)
    (hrange : ∀ v ∈ vs, v ≤ 65535)
    (hbytes : ∀ i (hi : i < vs.length),
      pk[i * 2 + 1]? = some (vs[i] / 256) ∧ pk[i * 2 + 2]? = some (vs[i] % 256)) :
    decodedValues n pk = vs := by
  apply List.ext_getElem
  · simp [decodedValues, hvs]
  · intro i h1 h2
    obtain ⟨b1, b2⟩ := hbytes i h2
    simp only [decodedValues, List.getElem_map, List.getElem_range, List.getD_eq_getElem?_getD,
      b1, b2, Option.getD_some]
    exact decode_byte _ (hrange _ (List.getElem_mem _))

/-- Claim C2 (channel packet round trip on the receiver): for a connected session with
`C = getNumChannels` channels and `getPayloadSize ≥ 1 + 2C`, whose radio holds exactly one
payload `p` with the Channels tag in the high nibble of byte 0 and, for each `i < C`, the
high and low byte of `vs[i] ≤ 65535` at bytes `2i+1` and `2i+2`, `update` returns 1 and
the channels array holds `vs[i]` at every index `i < C` (the entries from `C` on are as
before). The caller's array has room for `C` channels. -/
theorem update_channels_roundtrip (K : RCGlobal) (d : DeviceProtocol) (channels : List Nat)
    (telemetry : Option (List Nat)) (p : Payload) (vs : List Nat) (b0 : Nat)
    (hc : d.isConnected = true)
    (hsize : 1 + 2 * d._settings.getNumChannels ≤ d._settings.getPayloadSize)
    (hch : d._settings.getNumChannels ≤ channels.length)
    (hrx : d._radio.rx = [p])
    (htag : p.data[0]? = some b0) (hnib : b0 &&& 0xF0 = K._PACKET_CHANNELS)
    (hvs : vs.length = d._settings.getNumChannels)
    (hrange : ∀ v ∈ vs, v ≤ 65535)
    (hbytes : ∀ i (hi : i < vs.length),
      p.data[i * 2 + 1]? = some (vs[i] / 256) ∧ p.data[i * 2 + 2]? = some (vs[i] % 256)) :
    ∃ d', d.update K channels telemetry =
        Except.ok (1, vs ++ channels.drop d._settings.getNumChannels, d') ∧
      ∀ i (hi : i < vs.length),
        (vs ++ channels.drop d._settings.getNumChannels)[i]? = some vs[i] := by
  have hc' : d._isConnected = true := hc
  obtain ⟨B, hB⟩ : ∃ B : List Nat, B = p.data.take d._settings.getPayloadSize ++
      (List.replicate d._settings.getPayloadSize 0).drop
        (min d._settings.getPayloadSize p.data.length) := ⟨_, rfl⟩
  have hBlen : B.length = d._settings.getPayloadSize := by
    rw [hB]; exact read_length _ _ _ (List.length_replicate _ _)
  have hB0 : B.headD 0 = b0 := by
    apply headD_of_getElem
    rw [hB]
    exact read_getElem _ _ _ _ _ (by omega) htag
  have hBchan : isChannelsPacket K B = true := by
    simp [isChannelsPacket, ← List.headD_eq_head?_getD, hB0, hnib]
  have hBvals : decodedValues d._settings.getNumChannels B = vs := by
    apply decodedValues_eq _ _ _ hvs hrange
    intro i hi
    obtain ⟨b1, b2⟩ := hbytes i hi
    rw [hB]
    exact ⟨read_getElem _ _ _ _ _ (by omega) b1, read_getElem _ _ _ _ _ (by omega) b2⟩
  obtain ⟨L, hL⟩ : ∃ L : List Event, L =
      (match telemetry with
       | some t => if d._settings.getEnableAckPayload then
           [Event.writeAckPayload p.pipe t d._settings.getPayloadSize] else []
       | none => []) := ⟨_, rfl⟩
  obtain ⟨d1, hh, g1, g2, g3, g4, hr1, -⟩ :=
    handlePacket_fields K
      { d with _radio := { d._radio with
          rx := [],
          log := d._radio.log ++ ([Event.available true,
            Event.read d._settings.getPayloadSize] ++ L) } } 0 B channels
      (by simp only []; omega) hch
  simp only [hBchan, if_true, hBvals] at hh
  have hd1c : d1._isConnected = true := by
    rw [g1]
    simp [hc', isDisconnectPacket, hBchan]
  refine ⟨{ d1 with _radio := { d1._radio with
      log := d1._radio.log ++ [Event.available false] } }, ?_, ?_⟩
  · simp only [DeviceProtocol.update, hc, Bool.not_true, Bool.false_eq_true, if_false]
    rw [check_packet_cons K d _ _ _ _ p [] hc' hrx, ← hL, ← hB]
    simp only [hrx, List.length_cons, List.length_nil]
    rw [updateLoop_step, hh]
    simp only [DeviceProtocol.check_packet2]
    rw [check_packet_empty K d1 _ _ _ _ hd1c (by rw [hr1]), updateLoop_stop K _ _ _ _ _ _ (by omega)]
    simp [g3]
  · intro i hi
    rw [List.getElem?_append_left hi, List.getElem?_eq_getElem hi]

theorem handlePacket_disconnect (K : RCGlobal) (d : DeviceProtocol) (status : Int)
    (pk ch : List Nat) (h0 : pk[0]? = some K._PACKET_DISCONNECT)
    (hne : K._PACKET_DISCONNECT &&& 0xF0 ≠ K._PACKET_CHANNELS) :
    handlePacket K d status pk ch =
      Except.ok (status, ch,
        { d with _isConnected := false,
                 _radio := if d._settings.getEnableAck then d._radio
                           else sendAck K d._radio 50 }) := by
  unfold handlePacket
  rw [h0]
  by_cases ha : d._settings.getEnableAck = true <;> simp [hne, ha]

theorem telemetryAcks_cons (d : DeviceProtocol) (telemetry : Option (List Nat)) (p : Payload)
    (rest : List Payload) (hrx : d._radio.rx = p :: rest) :
    (match telemetry with
     | some t => if d._settings.getEnableAckPayload then
         [Event.writeAckPayload p.pipe t d._settings.getPayloadSize] else []
     | none => []) = telemetryAcks d telemetry := by
  rcases telemetry with _ | t <;> simp [telemetryAcks, hrx]

theorem transmissions_telemetryAcks (d : DeviceProtocol) (telemetry : Option (List Nat)) :
    transmissions (telemetryAcks d telemetry) = [] := by
  unfold telemetryAcks
  split
  · split_ifs <;> simp [transmissions]
  · simp [transmissions]

/-- Disconnect propagation for the packets that the test of `rcDeviceProtocol.cpp` 252
accepts, those whose byte 0 is the Disconnect tag with a zero low nibble: for a connected
session whose radio holds a single such payload, `update` leaves the session disconnected
(and returns `RC_ERROR_NOT_CONNECTED`). With acknowledgement mode disabled the calls after
the read are `stopListening`, `delay`, one `write` of the ACK byte, `startListening`, and
that write is the only transmission of the call; with acknowledgement mode enabled the call
transmits nothing. A packet has at least its tag byte (`1 ≤ getPayloadSize`). A packet that
carries the tag in its high nibble and anything else in the low nibble is not covered: the
code ignores it. -/
theorem update_disconnect (K : RCGlobal) (d : DeviceProtocol) (channels : List Nat)
    (telemetry : Option (List Nat)) (p : Payload) (hK : K.WF)
    (hc : d.isConnected = true) (hsize : 1 ≤ d._settings.getPayloadSize)
    (hrx : d._radio.rx = [p]) (hp : p.data[0]? = some K._PACKET_DISCONNECT) :
    ∃ d', d.update K channels telemetry =
        Except.ok (K.RC_ERROR_NOT_CONNECTED, channels, d') ∧
      d'.isConnected = false ∧
      (d._settings.getEnableAck = false →
        d'._radio.log = d._radio.log ++
          ([Event.available true, Event.read d._settings.getPayloadSize] ++
            telemetryAcks d telemetry ++
            [Event.stopListening, Event.delay 50,
             Event.write [K._ACK] 1 (d._radio.acks.headD false), Event.startListening]) ∧
        transmissions d'._radio.log = transmissions d._radio.log ++
          [Event.write [K._ACK] 1 (d._radio.acks.headD false)]) ∧
      (d._settings.getEnableAck = true →
        d'._radio.log = d._radio.log ++
          ([Event.available true, Event.read d._settings.getPayloadSize] ++
            telemetryAcks d telemetry) ∧
        transmissions d'._radio.log = transmissions d._radio.log) := by
  obtain ⟨-, -, -, -, hNC, -, -, -, -, hD, -, hCD, -, -⟩ := hK
  have hne : K._PACKET_DISCONNECT &&& 0xF0 ≠ K._PACKET_CHANNELS := by
    rw [hD]; exact fun h => hCD h.symm
  have hc' : d._isConnected = true := hc
  obtain ⟨B, hB⟩ : ∃ B : List Nat, B = p.data.take d._settings.getPayloadSize ++
      (List.replicate d._settings.getPayloadSize 0).drop
        (min d._settings.getPayloadSize p.data.length) := ⟨_, rfl⟩
  have hB0 : B[0]? = some K._PACKET_DISCONNECT := by
    rw [hB]
    exact read_getElem _ _ _ _ _ (by omega) hp
  have hT := transmissions_telemetryAcks d telemetry
  refine ⟨{ d with
      _isConnected := false,
      _radio := if d._settings.getEnableAck then
          { d._radio with rx := [], log := d._radio.log ++
              ([Event.available true, Event.read d._settings.getPayloadSize] ++
                telemetryAcks d telemetry) }
        else sendAck K { d._radio with rx := [], log := d._radio.log ++
              ([Event.available true, Event.read d._settings.getPayloadSize] ++
                telemetryAcks d telemetry) } 50 }, ?_, rfl, ?_, ?_⟩
  · simp only [DeviceProtocol.update, hc, Bool.not_true, Bool.false_eq_true, if_false]
    rw [check_packet_cons K d _ _ _ _ p [] hc' hrx, ← hB, telemetryAcks_cons d telemetry p [] hrx]
    simp only [hrx, List.length_cons, List.length_nil]
    rw [updateLoop_step, handlePacket_disconnect K _ _ _ _ hB0 hne]
    simp only []
    rw [check_packet2_disconnected K _ _ _ rfl, updateLoop_stop K _ _ _ _ _ _ (by omega)]
    simp [hNC]
  · intro ha
    simp only [ha, Bool.false_eq_true, if_false, sendAck_eq]
    simp only [transmissions, List.filter_append] at hT ⊢
    simp [hT]
  · intro ha
    simp only [ha, if_true]
    simp only [transmissions, List.filter_append] at hT ⊢
    simp [hT]

/-- Claim C5, counterexample: with acknowledgement-payload mode enabled, a telemetry buffer
supplied and two packets buffered, `update` reads both packets and attaches the telemetry
once, not twice. -/
theorem update_telemetry_counterexample :
    UpdateReady
      (sampleSession (sampleSettings 5 2 true true) true
        (sampleRadio [⟨1, [0xA0, 1, 2, 3, 4]⟩, ⟨1, [0xA0, 5, 6, 7, 8]⟩])) [0, 0] ∧
    ((sampleSession (sampleSettings 5 2 true true) true
        (sampleRadio [⟨1, [0xA0, 1, 2, 3, 4]⟩, ⟨1, [0xA0, 5, 6, 7, 8]⟩])).update
          sampleGlobal [0, 0] (some [9, 9, 9, 9, 9])).map
      (fun r => (reads r.2.2._radio.log, ackPayloads r.2.2._radio.log)) =
      Except.ok ([Event.read 5, Event.read 5], [Event.writeAckPayload 1 [9, 9, 9, 9, 9] 5]) :=
  ⟨by decide, rfl⟩

/-- Claim C5, amended: with acknowledgement-payload mode enabled and a telemetry buffer
supplied, a call of `update` on a connected session attaches the telemetry to the
acknowledgement once, for the first packet it reads: a call that reads `n ≥ 1` packets
issues exactly one acknowledgement-payload write of the telemetry buffer, on the pipe of
the first packet, and a call that finds no packet issues none. -/
theorem update_telemetry_once (K : RCGlobal) (d : DeviceProtocol) (channels : List Nat)
    (t : List Nat) (hNC : K.RC_ERROR_NOT_CONNECTED < 0)
    (hready : UpdateReady d channels) (hap : d._settings.getEnableAckPayload = true) :
    ∃ code ch' d', d.update K channels (some t) = Except.ok (code, ch', d') ∧
      (reads d'._radio.log).length =
        (reads d._radio.log).length + (handled K d._radio.rx).length ∧
      ackPayloads d'._radio.log = ackPayloads d._radio.log ++
        (match d._radio.rx with
         | [] => []
         | p :: _ => [Event.writeAckPayload p.pipe t d._settings.getPayloadSize]) := by
  obtain ⟨d', h, -, -, -, -, -, h7, h8, -⟩ := update_spec K d channels (some t) hNC hready
  refine ⟨_, _, d', h, h8, ?_⟩
  rw [h7]
  rcases hrx : d._radio.rx with _ | ⟨p, rest⟩ <;> simp [telemetryAcks, hrx, hap]

/-! ## `update`: idle, reconnect -/

/-- Claim C11 (idle update): for a connected session whose radio holds no payload, `update`
returns 0 and hands back the channels array and the session as they were, except that the
trace has one more entry, the `available` call that found nothing: the session is still
connected, the stored peer address is unchanged, nothing is transmitted and no
acknowledgement payload is attached. -/
theorem update_idle (K : RCGlobal) (d : DeviceProtocol) (channels : List Nat)
    (telemetry : Option (List Nat)) (hc : d.isConnected = true) (hrx : d._radio.rx = []) :
    ∃ d', d.update K channels telemetry = Except.ok (0, channels, d') ∧
      d' = { d with _radio := { d._radio with
               log := d._radio.log ++ [Event.available false] } } ∧
      d'.isConnected = true ∧ d'._remoteId = d._remoteId ∧
      transmissions d'._radio.log = transmissions d._radio.log ∧
      ackPayloads d'._radio.log = ackPayloads d._radio.log := by
  have hc' : d._isConnected = true := hc
  refine ⟨{ d with _radio := { d._radio with
      log := d._radio.log ++ [Event.available false] } }, ?_, rfl, hc, rfl, ?_, ?_⟩
  · simp only [DeviceProtocol.update, hc, Bool.not_true, Bool.false_eq_true, if_false]
    rw [check_packet_empty K d _ _ _ _ hc' hrx, updateLoop_stop K _ _ _ _ _ _ (by omega)]
    simp
  · simp [transmissions, List.filter_append]
  · simp [ackPayloads, List.filter_append]

theorem handlePacket_reconnect (K : RCGlobal) (d : DeviceProtocol) (status : Int)
    (pk ch : List Nat) (h0 : pk[0]? = some K._PACKET_RECONNECT)
    (hne : K._PACKET_RECONNECT &&& 0xF0 ≠ K._PACKET_CHANNELS)
    (hnd : K._PACKET_RECONNECT ≠ K._PACKET_DISCONNECT) :
    handlePacket K d status pk ch =
      Except.ok (status, ch,
        { d with _radio := if d._settings.getEnableAck then d._radio
                           else sendAck K d._radio 20 }) := by
  unfold handlePacket
  rw [h0]
  obtain ⟨did, rid, conn, s, r⟩ := d
  by_cases ha : s.getEnableAck = true <;> simp [hne, hnd, ha]

/-- The reconnect keep-alive for the packets that the test of `rcDeviceProtocol.cpp` 263
accepts, those whose byte 0 is the Reconnect tag with a zero low nibble: for a connected
session whose radio holds a single such payload, `update` returns 0 with the channels array
unchanged and the session still connected. With acknowledgement mode disabled the calls
after the read are `stopListening`, `delay`, one `write` of the ACK byte and
`startListening`; that write is the only transmission of the call and the radio is
listening when the call returns. With acknowledgement mode enabled the call transmits
nothing and leaves the listening state as it was. A packet has at least its tag byte. A
packet that carries the tag in its high nibble and anything else in the low nibble is not
covered: the code ignores it. -/
theorem update_reconnect (K : RCGlobal) (d : DeviceProtocol) (channels : List Nat)
    (telemetry : Option (List Nat)) (p : Payload) (hK : K.WF)
    (hc : d.isConnected = true) (hsize : 1 ≤ d._settings.getPayloadSize)
    (hrx : d._radio.rx = [p]) (hp : p.data[0]? = some K._PACKET_RECONNECT) :
    ∃ d', d.update K channels telemetry = Except.ok (0, channels, d') ∧
      d'.isConnected = true ∧
      (d._settings.getEnableAck = false →
        d'._radio.log = d._radio.log ++
          ([Event.available true, Event.read d._settings.getPayloadSize] ++
            telemetryAcks d telemetry ++
            [Event.stopListening, Event.delay 20,
             Event.write [K._ACK] 1 (d._radio.acks.headD false), Event.startListening,
             Event.available false]) ∧
        transmissions d'._radio.log = transmissions d._radio.log ++
          [Event.write [K._ACK] 1 (d._radio.acks.headD false)] ∧
        d'._radio.listening = true) ∧
      (d._settings.getEnableAck = true →
        d'._radio.log = d._radio.log ++
          ([Event.available true, Event.read d._settings.getPayloadSize] ++
            telemetryAcks d telemetry ++ [Event.available false]) ∧
        transmissions d'._radio.log = transmissions d._radio.log ∧
        d'._radio.listening = d._radio.listening) := by
  obtain ⟨-, -, -, -, hNC, -, -, -, -, -, hR, -, hCR, hDR⟩ := hK
  have hne : K._PACKET_RECONNECT &&& 0xF0 ≠ K._PACKET_CHANNELS := by
    rw [hR]; exact fun h => hCR h.symm
  have hnd : K._PACKET_RECONNECT ≠ K._PACKET_DISCONNECT := fun h => hDR h.symm
  have hc' : d._isConnected = true := hc
  obtain ⟨B, hB⟩ : ∃ B : List Nat, B = p.data.take d._settings.getPayloadSize ++
      (List.replicate d._settings.getPayloadSize 0).drop
        (min d._settings.getPayloadSize p.data.length) := ⟨_, rfl⟩
  have hB0 : B[0]? = some K._PACKET_RECONNECT := by
    rw [hB]
    exact read_getElem _ _ _ _ _ (by omega) hp
  have hT := transmissions_telemetryAcks d telemetry
  obtain ⟨R, hR'⟩ : ∃ R : RF24, R = (if d._settings.getEnableAck then
          { d._radio with rx := [], log := d._radio.log ++
              ([Event.available true, Event.read d._settings.getPayloadSize] ++
                telemetryAcks d telemetry) }
        else sendAck K { d._radio with rx := [], log := d._radio.log ++
              ([Event.available true, Event.read d._settings.getPayloadSize] ++
                telemetryAcks d telemetry) } 20) := ⟨_, rfl⟩
  have hRrx : R.rx = [] := by
    rw [hR']
    by_cases ha : d._settings.getEnableAck = true <;> simp [ha, sendAck_eq]
  refine ⟨{ d with _radio := { R with log := R.log ++ [Event.available false] } },
    ?_, hc, ?_, ?_⟩
  · simp only [DeviceProtocol.update, hc, Bool.not_true, Bool.false_eq_true, if_false]
    rw [check_packet_cons K d _ _ _ _ p [] hc' hrx, ← hB, telemetryAcks_cons d telemetry p [] hrx]
    simp only [hrx, List.length_cons, List.length_nil]
    rw [updateLoop_step, handlePacket_reconnect K _ _ _ _ hB0 hne hnd]
    simp only [DeviceProtocol.check_packet2, ← hR']
    rw [check_packet_empty K { d with _radio := R } _ _ _ _ hc' hRrx,
      updateLoop_stop K _ _ _ _ _ _ (by omega)]
    simp
  · intro ha
    simp only [hR', ha, Bool.false_eq_true, if_false, sendAck_eq]
    simp only [transmissions, List.filter_append] at hT ⊢
    simp [hT]
  · intro ha
    simp only [hR', ha, if_true]
    simp only [transmissions, List.filter_append] at hT ⊢
    simp [hT]

/-! ## `pair` -/

theorem write_eq (r : RF24) (buf : List Nat) (len : Nat) :
    r.write buf len =
      (r.acks.headD false,
       { r with acks := r.acks.tail,
                log := r.log ++ [Event.write buf len (r.acks.headD false)] }) := by
  rcases r with ⟨rx, arr, acks, forced, li, pa, log⟩
  rcases acks with _ | ⟨a, rest⟩ <;> simp [RF24.write, RF24.emit]

/-- The whole of `pair` when no announcement arrives in time. -/
theorem pair_timeout_eq (K : RCGlobal) (d : DeviceProtocol)
    (ha : d._radio.arrivals.headD [] = []) :
    d.pair K = (K.RC_ERROR_TIMEOUT,
      { d with _radio := { d._radio with
          rx := [], arrivals := d._radio.arrivals.tail, listening := true,
          paLevel := PALevel.RF24_PA_LOW,
          log := d._radio.log ++ (pairOpening K ++
            [Event.wait_till_available K.RC_TIMEOUT false]) } }) := by
  have ha' := ha
  simp only [List.headD_eq_head?_getD] at ha'
  unfold DeviceProtocol.pair
  simp only [wait_eq]
  simp [flush_buffer, RF24.startListening, RF24.openReadingPipe, apply_settings,
    RF24.setPALevel, RF24.emit, pairOpening, pendingOf, laterOf, ha']

/-- The whole of `pair` when the announcement `p` arrives in time. -/
theorem pair_arrived_eq (K : RCGlobal) (d : DeviceProtocol) (p : Payload) (ps : List Payload)
    (ha : d._radio.arrivals.headD [] = p :: ps) :
    d.pair K =
      (if d._radio.acks.headD false = true then
         (if d._radio.acks.tail.headD false = true then 0 else K.RC_ERROR_LOST_CONNECTION)
       else K.RC_ERROR_LOST_CONNECTION,
       { d with _radio := { d._radio with
          rx := ps, arrivals := d._radio.arrivals.tail,
          acks := if d._radio.acks.headD false = true then d._radio.acks.tail.tail
                  else d._radio.acks.tail,
          listening := false, paLevel := PALevel.RF24_PA_LOW,
          log := d._radio.log ++ (pairOpening K ++
            pairAnnounced K d p (d._radio.acks.headD false) ++
            (if d._radio.acks.headD false = true then
               [Event.delay 200,
                Event.write d._settings.getSettings 32 (d._radio.acks.tail.headD false)]
             else [])) } }) := by
  obtain ⟨did, rid, conn, s, ⟨rx, arr, acks, forced, li, pa, log⟩⟩ := d
  have ha' : arr.head?.getD [] = p :: ps := by simpa using ha
  unfold DeviceProtocol.pair
  simp only [wait_eq, write_eq]
  rcases acks with _ | ⟨a, _ | ⟨b, rest⟩⟩
  · simp [flush_buffer, RF24.startListening, RF24.stopListening, RF24.openReadingPipe,
      RF24.openWritingPipe, apply_settings, RF24.setPALevel, RF24.emit, RF24.read, delay,
      pairOpening, pairAnnounced, learnedId, pendingOf, laterOf, ha']
  · cases a <;>
    simp [flush_buffer, RF24.startListening, RF24.stopListening, RF24.openReadingPipe,
      RF24.openWritingPipe, apply_settings, RF24.setPALevel, RF24.emit, RF24.read, delay,
      pairOpening, pairAnnounced, learnedId, pendingOf, laterOf, ha']
  · cases a <;> cases b <;>
    simp [flush_buffer, RF24.startListening, RF24.stopListening, RF24.openReadingPipe,
      RF24.openWritingPipe, apply_settings, RF24.setPALevel, RF24.emit, RF24.read, delay,
      pairOpening, pairAnnounced, learnedId, pendingOf, laterOf, ha']

/-- Claim C13 (result of `pair`): for every script of the radio, `pair` returns
`RC_ERROR_TIMEOUT` exactly when no announcement arrives within the timeout,
`RC_ERROR_LOST_CONNECTION` exactly when one arrived and the write of the device identifier,
or after it the write of the settings, is not acknowledged, and 0 exactly when one arrived
and both writes are acknowledged; and the connection flag is the same after the call as
before it. The error constants are negative (`RCGlobal.WF`) and the two at stake are
distinct result codes. -/
theorem pair_result (K : RCGlobal) (d : DeviceProtocol) (hK : K.WF)
    (hTL : K.RC_ERROR_TIMEOUT ≠ K.RC_ERROR_LOST_CONNECTION) :
    ((d.pair K).1 = K.RC_ERROR_TIMEOUT ↔ d._radio.arrivals.headD [] = []) ∧
    ((d.pair K).1 = K.RC_ERROR_LOST_CONNECTION ↔
      d._radio.arrivals.headD [] ≠ [] ∧
      (d._radio.acks.headD false = false ∨
        (d._radio.acks.headD false = true ∧ d._radio.acks.tail.headD false = false))) ∧
    ((d.pair K).1 = 0 ↔
      d._radio.arrivals.headD [] ≠ [] ∧
      d._radio.acks.headD false = true ∧ d._radio.acks.tail.headD false = true) ∧
    (d.pair K).2.isConnected = d.isConnected := by
  obtain ⟨hL, hT, -⟩ := hK
  rcases ha : d._radio.arrivals.headD [] with _ | ⟨p, ps⟩
  · rw [pair_timeout_eq K d ha]
    refine ⟨by simp, ?_, ?_, rfl⟩
    · simp only [ne_eq, not_true_eq_false, false_and, iff_false]
      exact hTL
    · simp only [ne_eq, not_true_eq_false, false_and, iff_false]
      omega
  · rw [pair_arrived_eq K d p ps ha]
    refine ⟨?_, ?_, ?_, rfl⟩
    · cases d._radio.acks.headD false <;> cases d._radio.acks.tail.headD false <;>
        simp <;> omega
    · cases d._radio.acks.headD false <;> cases d._radio.acks.tail.headD false <;>
        simp
      all_goals omega
    · cases d._radio.acks.headD false <;> cases d._radio.acks.tail.headD false <;>
        simp
      all_goals omega

theorem learnedId_full (p : Payload) (h : 5 ≤ p.data.length) :
    learnedId p = p.data.take 5 := by
  simp [learnedId, Nat.min_eq_left h]

/-- Claim C14 (sequence of `pair`): when no announcement arrives, the trace of the call
holds neither an invocation of the callback nor a transmission. When the announcement `p`
arrives, the trace is: the wait, the read of 5 bytes, the callback with exactly those 5
bytes, `stopListening`, `openWritingPipe` to the same address, a delay, the write of the
5-byte device identifier, and, only if that write was acknowledged, a delay and the write
of the 32-byte settings. So the callback is invoked exactly once and before any
transmission, also when the first write fails, and the transmissions are the device
identifier first and the settings second. -/
theorem pair_sequence (K : RCGlobal) (d : DeviceProtocol) :
    (d._radio.arrivals.headD [] = [] →
      (d.pair K).2._radio.log = d._radio.log ++
        (pairOpening K ++ [Event.wait_till_available K.RC_TIMEOUT false]) ∧
      savedIds (pairOpening K ++ [Event.wait_till_available K.RC_TIMEOUT false]) = [] ∧
      transmissions (pairOpening K ++ [Event.wait_till_available K.RC_TIMEOUT false]) = []) ∧
    (∀ p ps, d._radio.arrivals.headD [] = p :: ps →
      (5 ≤ p.data.length → learnedId p = p.data.take 5) ∧
      (d._radio.acks.headD false = false →
        (d.pair K).1 = K.RC_ERROR_LOST_CONNECTION ∧
        (d.pair K).2._radio.log = d._radio.log ++
          (pairOpening K ++ pairAnnounced K d p false) ∧
        savedIds (pairOpening K ++ pairAnnounced K d p false) = [learnedId p] ∧
        transmissions (pairOpening K ++ pairAnnounced K d p false) =
          [Event.write d._deviceId 5 false]) ∧
      (d._radio.acks.headD false = true →
        (d.pair K).2._radio.log = d._radio.log ++
          (pairOpening K ++ pairAnnounced K d p true ++
            [Event.delay 200,
             Event.write d._settings.getSettings 32 (d._radio.acks.tail.headD false)]) ∧
        savedIds (pairOpening K ++ pairAnnounced K d p true ++
            [Event.delay 200,
             Event.write d._settings.getSettings 32 (d._radio.acks.tail.headD false)]) =
          [learnedId p] ∧
        transmissions (pairOpening K ++ pairAnnounced K d p true ++
            [Event.delay 200,
             Event.write d._settings.getSettings 32 (d._radio.acks.tail.headD false)]) =
          [Event.write d._deviceId 5 true,
           Event.write d._settings.getSettings 32 (d._radio.acks.tail.headD false)])) := by
  refine ⟨fun ha => ?_, fun p ps ha => ⟨learnedId_full p, fun h1 => ?_, fun h1 => ?_⟩⟩
  · rw [pair_timeout_eq K d ha]
    exact ⟨rfl, by simp [savedIds, pairOpening], by simp [transmissions, pairOpening]⟩
  · have e := pair_arrived_eq K d p ps ha
    simp only [h1, Bool.false_eq_true, if_false, List.append_nil] at e
    rw [e]
    exact ⟨rfl, rfl, by simp [savedIds, pairOpening, pairAnnounced],
      by simp [transmissions, pairOpening, pairAnnounced]⟩
  · have e := pair_arrived_eq K d p ps ha
    simp only [h1, if_true] at e
    rw [e]
    exact ⟨rfl, by simp [savedIds, pairOpening, pairAnnounced],
      by simp [transmissions, pairOpening, pairAnnounced]⟩

/-! ## `update`: telemetry, peer address, channels, index safety -/

/-- Claim C16: with acknowledgement-payload mode disabled, a call of `update` on a connected
session, whatever the telemetry buffer and the buffered packets, attaches no
acknowledgement payload, and every transmission it makes is a `write` of the one-byte ACK
constant, never of the telemetry buffer. -/
theorem update_no_telemetry (K : RCGlobal) (d : DeviceProtocol) (channels : List Nat)
    (telemetry : Option (List Nat)) (hNC : K.RC_ERROR_NOT_CONNECTED < 0)
    (hready : UpdateReady d channels) (hap : d._settings.getEnableAckPayload = false) :
    ∃ code ch' d' es, d.update K channels telemetry = Except.ok (code, ch', d') ∧
      d'._radio.log = d._radio.log ++ es ∧
      ackPayloads es = [] ∧
      ∀ e ∈ transmissions es, IsAckWrite K e := by
  obtain ⟨d', h, -, -, -, -, -, h7, -, es, hes1, hes2, -⟩ :=
    update_spec K d channels telemetry hNC hready
  refine ⟨_, _, d', es, h, hes1, ?_, hes2⟩
  have ht : telemetryAcks d telemetry = [] := by
    unfold telemetryAcks
    split
    · simp [hap]
    · rfl
  rw [hes1, ht] at h7
  simp only [ackPayloads, List.filter_append, List.append_nil] at h7 ⊢
  exact List.append_cancel_left (h7.trans (List.append_nil _).symm)

theorem channelsAfter_eq (K : RCGlobal) (n : Nat) (read : List Payload) :
    ∀ ch : List Nat, n ≤ ch.length →
      channelsAfter K n read ch =
        (match lastChannelsPacket K read with
         | some p => decodedValues n p.data ++ ch.drop n
         | none => ch) := by
  induction read with
  | nil => intro ch _; rfl
  | cons q rest ih =>
    intro ch hch
    have hlen : n ≤ (if isChannelsPacket K q.data then
        decodedValues n q.data ++ ch.drop n else ch).length := by
      split_ifs
      · simp [decodedValues]
      · exact hch
    have hdrop : (if isChannelsPacket K q.data then
        decodedValues n q.data ++ ch.drop n else ch).drop n = ch.drop n := by
      split_ifs
      · simp [decodedValues]
      · rfl
    simp only [channelsAfter, lastChannelsPacket]
    rw [ih _ hlen]
    rcases lastChannelsPacket K rest with _ | p
    · by_cases hq : isChannelsPacket K q.data = true <;> simp [hq]
    · simp only [hdrop]

/-- Claim C20: after a call of `update` on a connected session that reads the payloads
`handled`, the channels array has its length unchanged and its entries from index
`getNumChannels` on unchanged; if one of those payloads was a Channels packet, the first
`getNumChannels` entries are the values decoded from the last such packet; if none was, the
whole array is unchanged. -/
theorem update_last_channels (K : RCGlobal) (d : DeviceProtocol) (channels : List Nat)
    (telemetry : Option (List Nat)) (hNC : K.RC_ERROR_NOT_CONNECTED < 0)
    (hready : UpdateReady d channels) :
    ∃ code ch' d', d.update K channels telemetry = Except.ok (code, ch', d') ∧
      ch'.length = channels.length ∧
      ch'.drop d._settings.getNumChannels = channels.drop d._settings.getNumChannels ∧
      (∀ p, lastChannelsPacket K (handled K d._radio.rx) = some p →
        ch'.take d._settings.getNumChannels = decodedValues d._settings.getNumChannels p.data) ∧
      (lastChannelsPacket K (handled K d._radio.rx) = none → ch' = channels) := by
  obtain ⟨d', h, -⟩ := update_spec K d channels telemetry hNC hready
  have hch : d._settings.getNumChannels ≤ channels.length := hready.2.2.1
  have e := channelsAfter_eq K d._settings.getNumChannels (handled K d._radio.rx) channels hch
  refine ⟨_, _, d', h, ?_, ?_, ?_, ?_⟩
  · rw [e]
    rcases lastChannelsPacket K (handled K d._radio.rx) with _ | p
    · rfl
    · simp [decodedValues]; omega
  · rw [e]
    rcases lastChannelsPacket K (handled K d._radio.rx) with _ | p
    · rfl
    · simp [decodedValues]
  · intro p hp
    rw [e, hp]
    simp [decodedValues]
  · intro hn
    rw [e, hn]

/-- The loop of `update` never leaves its arrays: with a buffer of `getPayloadSize` bytes
that holds the tag byte and two bytes per channel, and a channels array with room for
every channel, it returns a result, and the channels array keeps its length and its entries
from index `getNumChannels` on. The buffered payloads may have any length. -/
theorem updateLoop_safe (K : RCGlobal) (hNC : K.RC_ERROR_NOT_CONNECTED < 0) :
    ∀ (rest : List Payload) (fuel : Nat) (ps status : Int) (pk ch : List Nat)
      (d : DeviceProtocol),
      d._radio.rx = rest → rest.length < fuel →
      pk.length = d._settings.getPayloadSize →
      1 + 2 * d._settings.getNumChannels ≤ d._settings.getPayloadSize →
      d._settings.getNumChannels ≤ ch.length →
      ∃ code ch' d', updateLoop K fuel ps status pk ch d = Except.ok (code, ch', d') ∧
        ch'.length = ch.length ∧
        ch'.drop d._settings.getNumChannels = ch.drop d._settings.getNumChannels := by
  intro rest
  induction rest with
  | nil =>
    intro fuel ps status pk ch d hrx hfuel hpk hsize hch
    by_cases hps : ps = 1
    · subst hps
      obtain ⟨f, rfl⟩ : ∃ f, fuel = f + 1 := ⟨fuel - 1, by simp at hfuel; omega⟩
      obtain ⟨d1, hh, g1, -, g3, -, hr1, -⟩ :=
        handlePacket_fields K d status pk ch (by omega) hch
      have hlen : (if isChannelsPacket K pk then
          decodedValues d._settings.getNumChannels pk ++ ch.drop d._settings.getNumChannels
          else ch).length = ch.length := by
        split_ifs
        · simp [decodedValues]; omega
        · rfl
      have hdrop : (if isChannelsPacket K pk then
          decodedValues d._settings.getNumChannels pk ++ ch.drop d._settings.getNumChannels
          else ch).drop d._settings.getNumChannels = ch.drop d._settings.getNumChannels := by
        split_ifs
        · simp [decodedValues]
        · rfl
      rw [updateLoop_step, hh]
      simp only []
      by_cases hc1 : d1._isConnected = true
      · simp only [DeviceProtocol.check_packet2]
        rw [check_packet_empty K d1 _ _ _ _ hc1 (by rw [hr1, hrx]),
          updateLoop_stop K _ _ _ _ _ _ (by omega)]
        exact ⟨_, _, _, rfl, hlen, hdrop⟩
      · simp only [Bool.not_eq_true] at hc1
        rw [check_packet2_disconnected K d1 _ _ hc1,
          updateLoop_stop K _ _ _ _ _ _ (by omega)]
        exact ⟨_, _, _, rfl, hlen, hdrop⟩
    · rw [updateLoop_stop K _ _ _ _ _ _ hps]
      exact ⟨_, _, _, rfl, rfl, rfl⟩
  | cons q rest' ih =>
    intro fuel ps status pk ch d hrx hfuel hpk hsize hch
    by_cases hps : ps = 1
    · subst hps
      obtain ⟨f, rfl⟩ : ∃ f, fuel = f + 1 := ⟨fuel - 1, by simp at hfuel; omega⟩
      obtain ⟨d1, hh, g1, -, g3, -, hr1, -⟩ :=
        handlePacket_fields K d status pk ch (by omega) hch
      have hlen : (if isChannelsPacket K pk then
          decodedValues d._settings.getNumChannels pk ++ ch.drop d._settings.getNumChannels
          else ch).length = ch.length := by
        split_ifs
        · simp [decodedValues]; omega
        · rfl
      have hdrop : (if isChannelsPacket K pk then
          decodedValues d._settings.getNumChannels pk ++ ch.drop d._settings.getNumChannels
          else ch).drop d._settings.getNumChannels = ch.drop d._settings.getNumChannels := by
        split_ifs
        · simp [decodedValues]
        · rfl
      rw [updateLoop_step, hh]
      simp only []
      by_cases hc1 : d1._isConnected = true
      · simp only [DeviceProtocol.check_packet2]
        rw [check_packet_cons K d1 _ _ _ _ q rest' hc1 (by rw [hr1, hrx])]
        simp only [g3]
        obtain ⟨code, ch', d', h1, h2, h3⟩ :=
          ih f 1 (if isChannelsPacket K pk then 1 else status)
            (q.data.take d._settings.getPayloadSize ++
              pk.drop (min d._settings.getPayloadSize q.data.length))
            (if isChannelsPacket K pk then
              decodedValues d._settings.getNumChannels pk ++ ch.drop d._settings.getNumChannels
             else ch)
            { d1 with _radio := { d1._radio with
                rx := rest',
                log := d1._radio.log ++ ([Event.available true,
                  Event.read d._settings.getPayloadSize] ++ []) } }
            rfl (by simp at hfuel ⊢; omega)
            (by simp only [g3]; exact read_length _ _ _ hpk)
            (by simpa [g3] using hsize)
            (by simp only [g3]; omega)
        simp only [g3] at h1 h3
        exact ⟨code, ch', d', h1, h2.trans hlen, h3.trans hdrop⟩
      · simp only [Bool.not_eq_true] at hc1
        rw [check_packet2_disconnected K d1 _ _ hc1,
          updateLoop_stop K _ _ _ _ _ _ (by omega)]
        exact ⟨_, _, _, rfl, hlen, hdrop⟩
    · rw [updateLoop_stop K _ _ _ _ _ _ hps]
      exact ⟨_, _, _, rfl, rfl, rfl⟩

/-- Claim C18 (index safety of the channel decoder): under `getPayloadSize ≥ 1 + 2 *
getNumChannels`, with a channels array that has room for every channel, byte 0 and the bytes
`2i+1`, `2i+2` for `i < getNumChannels` lie inside the `getPayloadSize`-byte packet buffer,
and `update` returns a result for every session and every buffered payloads: the
out-of-range branch is never taken. The entries of the channels array from index
`getNumChannels` on are never written and its length is unchanged. -/
theorem update_index_safe (K : RCGlobal) (d : DeviceProtocol) (channels : List Nat)
    (telemetry : Option (List Nat)) (hNC : K.RC_ERROR_NOT_CONNECTED < 0)
    (hsize : 1 + 2 * d._settings.getNumChannels ≤ d._settings.getPayloadSize)
    (hch : d._settings.getNumChannels ≤ channels.length) :
    (0 < d._settings.getPayloadSize ∧
      ∀ i, i < d._settings.getNumChannels →
        i * 2 + 1 < d._settings.getPayloadSize ∧ i * 2 + 2 < d._settings.getPayloadSize ∧
        i < channels.length) ∧
    ∃ code ch' d', d.update K channels telemetry = Except.ok (code, ch', d') ∧
      ch'.length = channels.length ∧
      ch'.drop d._settings.getNumChannels = channels.drop d._settings.getNumChannels := by
  refine ⟨⟨by omega, fun i hi => ⟨by omega, by omega, by omega⟩⟩, ?_⟩
  by_cases hc : d._isConnected = true
  · rcases hrx : d._radio.rx with _ | ⟨p, rest⟩
    · simp only [DeviceProtocol.update, DeviceProtocol.isConnected, hc, Bool.not_true,
        Bool.false_eq_true, if_false]
      rw [check_packet_empty K d _ _ _ _ hc hrx, updateLoop_stop K _ _ _ _ _ _ (by omega)]
      exact ⟨_, _, _, rfl, rfl, rfl⟩
    · simp only [DeviceProtocol.update, DeviceProtocol.isConnected, hc, Bool.not_true,
        Bool.false_eq_true, if_false]
      rw [check_packet_cons K d _ _ _ _ p rest hc hrx]
      simp only [hrx, List.length_cons]
      exact updateLoop_safe K hNC rest (rest.length + 1 + 1) 1 0 _ channels
        { d with _radio := { d._radio with
            rx := rest,
            log := d._radio.log ++ ([Event.available true,
              Event.read d._settings.getPayloadSize] ++
              (match telemetry with
               | some t => if d._settings.getEnableAckPayload then
                   [Event.writeAckPayload p.pipe t d._settings.getPayloadSize] else []
               | none => [])) } }
        rfl (by omega) (read_length _ _ _ (List.length_replicate _ _)) hsize hch
  · simp only [Bool.not_eq_true] at hc
    simp only [DeviceProtocol.update, DeviceProtocol.isConnected, hc, Bool.not_false, if_true]
    exact ⟨_, _, _, rfl, rfl, rfl⟩

/-- Claim C12, evaluation at the failing input: two sessions that differ only in the low
nibble of byte 0 of the one buffered packet. With byte 0 = `0xC0` (the Disconnect tag) the
call returns `RC_ERROR_NOT_CONNECTED`, disconnects and writes the ACK byte; with byte 0 =
`0xC5`, same high nibble, it returns 0, stays connected and writes nothing. Likewise for
the Reconnect tag: `0xD0` is acknowledged with a write, `0xD7` is not. -/
theorem update_dispatch_whole_byte :
    0xC0 &&& 0xF0 = 0xC5 &&& 0xF0 ∧
    ((sampleSession (sampleSettings 5 2 false false) true
        (sampleRadio [⟨1, [0xC0, 0, 0, 0, 0]⟩])).update sampleGlobal [0, 0] none).map
      (fun r => (r.1, r.2.2._isConnected, transmissions r.2.2._radio.log)) =
      Except.ok (-21, false, [Event.write [0x06] 1 false]) ∧
    ((sampleSession (sampleSettings 5 2 false false) true
        (sampleRadio [⟨1, [0xC5, 0, 0, 0, 0]⟩])).update sampleGlobal [0, 0] none).map
      (fun r => (r.1, r.2.2._isConnected, transmissions r.2.2._radio.log)) =
      Except.ok (0, true, []) ∧
    0xD0 &&& 0xF0 = 0xD7 &&& 0xF0 ∧
    ((sampleSession (sampleSettings 5 2 false false) true
        (sampleRadio [⟨1, [0xD0, 0, 0, 0, 0]⟩])).update sampleGlobal [0, 0] none).map
      (fun r => (r.1, r.2.2._isConnected, transmissions r.2.2._radio.log)) =
      Except.ok (0, true, [Event.write [0x06] 1 false]) ∧
    ((sampleSession (sampleSettings 5 2 false false) true
        (sampleRadio [⟨1, [0xD7, 0, 0, 0, 0]⟩])).update sampleGlobal [0, 0] none).map
      (fun r => (r.1, r.2.2._isConnected, transmissions r.2.2._radio.log)) =
      Except.ok (0, true, []) :=
  ⟨by decide, rfl, rfl, by decide, rfl, rfl⟩

/-- Claim C6 (disconnect propagation), evaluation at the failing input: a connected
session whose radio holds the single packet `[0xC1, 0, 0, 0, 0]`, which has the Disconnect
tag `0xC0` in the high nibble of byte 0. The claim says that `update` leaves the session
disconnected and, with acknowledgement mode disabled, writes one ACK byte. The code compares
the whole of byte 0 with the tag (`rcDeviceProtocol.cpp` 252), so the packet is ignored: with
acknowledgement mode disabled the call returns 0, the session is still connected and the
trace holds no write; with acknowledgement mode enabled it returns 0 and the session is
still connected as well. -/
theorem update_disconnect_tag_ignored :
    0xC1 &&& 0xF0 = sampleGlobal._PACKET_DISCONNECT ∧
    ((sampleSession (sampleSettings 5 2 false false) true
        (sampleRadio [⟨1, [0xC1, 0, 0, 0, 0]⟩])).update sampleGlobal [3, 4] none).map
      (fun r => (r.1, r.2.2.isConnected, r.2.2._radio.log)) =
      Except.ok (0, true, [Event.available true, Event.read 5, Event.available false]) ∧
    ((sampleSession (sampleSettings 5 2 true false) true
        (sampleRadio [⟨1, [0xC1, 0, 0, 0, 0]⟩])).update sampleGlobal [3, 4] none).map
      (fun r => (r.1, r.2.2.isConnected, r.2.2._radio.log)) =
      Except.ok (0, true, [Event.available true, Event.read 5, Event.available false]) :=
  ⟨by decide, rfl, rfl⟩

/-- Claim C15 (reconnect keep-alive), evaluation at the failing input: a connected session
with acknowledgement mode disabled whose radio holds the single packet
`[0xDF, 0, 0, 0, 0]`, which has the Reconnect tag `0xD0` in the high nibble of byte 0. The
claim says that `update` writes exactly one ACK byte. The code compares the whole of byte 0
with the tag (`rcDeviceProtocol.cpp` 263), so the packet is ignored: the call returns 0 with
the channels array unchanged and the session connected, as the claim says, but the trace
holds no `stopListening`, no write of the ACK byte and no `startListening`. -/
theorem update_reconnect_tag_unanswered :
    0xDF &&& 0xF0 = sampleGlobal._PACKET_RECONNECT ∧
    (sampleSettings 5 2 false false).getEnableAck = false ∧
    ((sampleSession (sampleSettings 5 2 false false) true
        (sampleRadio [⟨1, [0xDF, 0, 0, 0, 0]⟩])).update sampleGlobal [3, 4] none).map
      (fun r => (r.1, r.2.1, r.2.2.isConnected, r.2.2._radio.log,
        transmissions r.2.2._radio.log)) =
      Except.ok (0, [3, 4], true,
        [Event.available true, Event.read 5, Event.available false], []) :=
  ⟨by decide, rfl, rfl⟩

/-! ## Witnesses -/

/-- Claim C1, witness: a session that was connected runs a successful handshake with
acknowledgement mode disabled. -/
theorem connect_connected_iff_zero_witness :
    sampleGlobal.WF ∧
    (sampleSession (sampleSettings 5 2 false true) true
      (scriptedRadio [] [true] [[⟨1, [0x06]⟩], [⟨1, [0x61]⟩]] [true]))._remoteId.length = 5 ∧
    5 ≤ [0x52, 0x45, 0x4D, 0x4F, 0x54].length ∧
    ∃ code d',
      (sampleSession (sampleSettings 5 2 false true) true
        (scriptedRadio [] [true] [[⟨1, [0x06]⟩], [⟨1, [0x61]⟩]] [true])).connect sampleGlobal
          [0x52, 0x45, 0x4D, 0x4F, 0x54] = Except.ok (code, d') ∧
      (d'.isConnected = true ↔ code = 0) ∧
      (code ≠ 0 → d'.isConnected = false) ∧
      (code = 0 → d'._remoteId = [0x52, 0x45, 0x4D, 0x4F, 0x54].take 5) :=
  ⟨by decide, by decide, by decide,
    connect_connected_iff_zero sampleGlobal _ _ (by decide) (by decide) (by decide)⟩

/-- Claim C2, witness: two channels, values 258 and 65534, in a 5-byte packet whose tag
byte has a non-zero low nibble. -/
theorem update_channels_roundtrip_witness :
    (sampleSession (sampleSettings 5 2 true false) true
      (sampleRadio [⟨1, [0xA3, 0x01, 0x02, 0xFF, 0xFE]⟩])).isConnected = true ∧
    1 + 2 * 2 ≤ 5 ∧ 2 ≤ [0, 0, 7].length ∧
    (sampleRadio [⟨1, [0xA3, 0x01, 0x02, 0xFF, 0xFE]⟩]).rx =
      [⟨1, [0xA3, 0x01, 0x02, 0xFF, 0xFE]⟩] ∧
    [0xA3, 0x01, 0x02, 0xFF, 0xFE][0]? = some 0xA3 ∧
    0xA3 &&& 0xF0 = sampleGlobal._PACKET_CHANNELS ∧
    [258, 65534].length = 2 ∧
    (∀ v ∈ [258, 65534], v ≤ 65535) ∧
    (∀ i (hi : i < [258, 65534].length),
      [0xA3, 0x01, 0x02, 0xFF, 0xFE][i * 2 + 1]? = some ([258, 65534][i] / 256) ∧
      [0xA3, 0x01, 0x02, 0xFF, 0xFE][i * 2 + 2]? = some ([258, 65534][i] % 256)) ∧
    ∃ d', (sampleSession (sampleSettings 5 2 true false) true
        (sampleRadio [⟨1, [0xA3, 0x01, 0x02, 0xFF, 0xFE]⟩])).update sampleGlobal [0, 0, 7] none =
        Except.ok (1, [258, 65534] ++ [0, 0, 7].drop 2, d') ∧
      ∀ i (hi : i < [258, 65534].length),
        ([258, 65534] ++ [0, 0, 7].drop 2)[i]? = some [258, 65534][i] :=
  ⟨by decide, by decide, by decide, rfl, by decide, by decide, by decide, by decide, by decide,
    update_channels_roundtrip sampleGlobal
      (sampleSession (sampleSettings 5 2 true false) true
        (sampleRadio [⟨1, [0xA3, 0x01, 0x02, 0xFF, 0xFE]⟩]))
      [0, 0, 7] none ⟨1, [0xA3, 0x01, 0x02, 0xFF, 0xFE]⟩ [258, 65534] 0xA3
      (by decide) (by decide) (by decide) rfl (by decide) (by decide) (by decide) (by decide)
      (by decide)⟩

/-- Claim C5, witness: two Channels packets with telemetry and payload mode; two reads and
one acknowledgement payload. -/
theorem update_telemetry_once_witness :
    sampleGlobal.RC_ERROR_NOT_CONNECTED < 0 ∧
    UpdateReady
      (sampleSession (sampleSettings 5 2 true true) true
        (sampleRadio [⟨1, [0xA0, 1, 2, 3, 4]⟩, ⟨1, [0xA0, 5, 6, 7, 8]⟩])) [0, 0] ∧
    (sampleSettings 5 2 true true).getEnableAckPayload = true ∧
    ∃ code ch' d',
      (sampleSession (sampleSettings 5 2 true true) true
        (sampleRadio [⟨1, [0xA0, 1, 2, 3, 4]⟩, ⟨1, [0xA0, 5, 6, 7, 8]⟩])).update
          sampleGlobal [0, 0] (some [9, 9, 9, 9, 9]) = Except.ok (code, ch', d') ∧
      (reads d'._radio.log).length = 2 ∧
      ackPayloads d'._radio.log = [Event.writeAckPayload 1 [9, 9, 9, 9, 9] 5] := by
  refine ⟨by decide, by decide, by decide, ?_⟩
  obtain ⟨code, ch', d', h, h1, h2⟩ := update_telemetry_once sampleGlobal
    (sampleSession (sampleSettings 5 2 true true) true
      (sampleRadio [⟨1, [0xA0, 1, 2, 3, 4]⟩, ⟨1, [0xA0, 5, 6, 7, 8]⟩]))
    [0, 0] [9, 9, 9, 9, 9] (by decide) (by decide) (by decide)
  exact ⟨code, ch', d', h, h1, h2⟩

/-- An instance of `update_disconnect`: byte 0 is exactly the Disconnect tag and
acknowledgement mode is disabled; the call sends one ACK byte. -/
theorem update_disconnect_witness :
    sampleGlobal.WF ∧
    (sampleSession (sampleSettings 5 2 false false) true
      (sampleRadio [⟨1, [0xC0, 0, 0, 0, 0]⟩])).isConnected = true ∧
    1 ≤ (sampleSettings 5 2 false false).getPayloadSize ∧
    (sampleRadio [⟨1, [0xC0, 0, 0, 0, 0]⟩]).rx = [⟨1, [0xC0, 0, 0, 0, 0]⟩] ∧
    [0xC0, 0, 0, 0, 0][0]? = some sampleGlobal._PACKET_DISCONNECT ∧
    ∃ d',
      (sampleSession (sampleSettings 5 2 false false) true
        (sampleRadio [⟨1, [0xC0, 0, 0, 0, 0]⟩])).update sampleGlobal [0, 0] none =
        Except.ok (-21, [0, 0], d') ∧
      d'.isConnected = false ∧
      d'._radio.log =
        [Event.available true, Event.read 5, Event.stopListening, Event.delay 50,
         Event.write [0x06] 1 false, Event.startListening] ∧
      transmissions d'._radio.log = [Event.write [0x06] 1 false] := by
  refine ⟨by decide, by decide, by decide, rfl, by decide, ?_⟩
  obtain ⟨d', h, h1, h2, -⟩ := update_disconnect sampleGlobal
    (sampleSession (sampleSettings 5 2 false false) true
      (sampleRadio [⟨1, [0xC0, 0, 0, 0, 0]⟩]))
    [0, 0] none ⟨1, [0xC0, 0, 0, 0, 0]⟩ (by decide) (by decide) (by decide) rfl (by decide)
  exact ⟨d', h, h1, (h2 rfl).1, (h2 rfl).2⟩

/-- Claim C7, witness: a forced send that fails, and an answer of NACK. -/
theorem connect_handshake_errors_witness :
    (∃ d', (sampleSession (sampleSettings 5 2 true false) false
        (scriptedRadio [] [false] [] [])).connect sampleGlobal [0x52, 0x45, 0x4D, 0x4F, 0x54] =
        Except.ok (-12, d') ∧ d'.isConnected = false ∧
      d'._radio.paLevel = PALevel.RF24_PA_LOW) ∧
    (∃ d', (sampleSession (sampleSettings 5 2 true false) false
        (scriptedRadio [] [true] [[⟨1, [0x15]⟩]] [])).connect sampleGlobal
          [0x52, 0x45, 0x4D, 0x4F, 0x54] =
        Except.ok (-14, d') ∧ d'.isConnected = false ∧
      d'._radio.paLevel = PALevel.RF24_PA_LOW) := by
  obtain ⟨d1, h1, g1, -, g2, -⟩ := (connect_handshake_errors sampleGlobal
    (sampleSession (sampleSettings 5 2 true false) false (scriptedRadio [] [false] [] []))
    [0x52, 0x45, 0x4D, 0x4F, 0x54]).1 (by decide)
  obtain ⟨d2, h2, g3, -, g4, -⟩ := (((connect_handshake_errors sampleGlobal
    (sampleSession (sampleSettings 5 2 true false) false
      (scriptedRadio [] [true] [[⟨1, [0x15]⟩]] []))
    [0x52, 0x45, 0x4D, 0x4F, 0x54]).2 (by decide)).2 ⟨1, [0x15]⟩ [] rfl).1 (by decide)
  exact ⟨⟨d1, h1, g1, g2⟩, ⟨d2, h2, g3, g4⟩⟩

/-- Claim C8, witness: ack with ack payload; after the ACK a payload arrives whose first
byte is not the test byte. -/
theorem connect_confirmation_errors_witness :
    sampleGlobal._ACK ≠ sampleGlobal._NACK ∧
    (scriptedRadio [] [true] [[⟨1, [0x06]⟩], [⟨1, [0x33]⟩]] []).forced.head? = some true ∧
    (scriptedRadio [] [true] [[⟨1, [0x06]⟩], [⟨1, [0x33]⟩]] []).arrivals.headD [] =
      [⟨1, [0x06]⟩] ∧
    firstByte ⟨1, [0x06]⟩ = sampleGlobal._ACK ∧
    pendingOf [] [[⟨1, [0x33]⟩]] = [⟨1, [0x33]⟩] ∧
    firstByte ⟨1, [0x33]⟩ ≠ sampleGlobal._TEST ∧
    ∃ d', (sampleSession (sampleSettings 5 2 true true) false
        (scriptedRadio [] [true] [[⟨1, [0x06]⟩], [⟨1, [0x33]⟩]] [])).connect sampleGlobal
          [0x52, 0x45, 0x4D, 0x4F, 0x54] =
        Except.ok (-13, d') ∧
      d'.isConnected = false ∧ d'._remoteId = [9, 8, 7, 6, 5] ∧
      d'._radio.listening = false :=
  ⟨by decide, by decide, rfl, by decide, rfl, by decide,
    (connect_confirmation_errors sampleGlobal
      (sampleSession (sampleSettings 5 2 true true) false
        (scriptedRadio [] [true] [[⟨1, [0x06]⟩], [⟨1, [0x33]⟩]] []))
      [0x52, 0x45, 0x4D, 0x4F, 0x54] ⟨1, [0x06]⟩ [] (by decide) (by decide) rfl
      (by decide)).2 ⟨1, [0x33]⟩ [] rfl (by decide)⟩

/-- Claim C9, witness: acknowledgement mode disabled; the whole trace of a successful
`connect`, with the one write of the test byte after the second read. -/
theorem connect_confirmation_transmits_witness :
    sampleGlobal._ACK ≠ sampleGlobal._NACK ∧
    ([9, 8, 7, 6, 5] : List Nat).length = 5 ∧ 5 ≤ [0x52, 0x45, 0x4D, 0x4F, 0x54].length ∧
    (scriptedRadio [] [true] [[⟨1, [0x06]⟩], [⟨1, [0x61]⟩]] [true]).forced.head? = some true ∧
    (scriptedRadio [] [true] [[⟨1, [0x06]⟩], [⟨1, [0x61]⟩]] [true]).arrivals.headD [] =
      [⟨1, [0x06]⟩] ∧
    firstByte ⟨1, [0x06]⟩ = sampleGlobal._ACK ∧
    pendingOf [] [[⟨1, [0x61]⟩]] = [⟨1, [0x61]⟩] ∧
    firstByte ⟨1, [0x61]⟩ = sampleGlobal._TEST ∧
    ∃ d', (sampleSession (sampleSettings 5 2 false false) false
        (scriptedRadio [] [true] [[⟨1, [0x06]⟩], [⟨1, [0x61]⟩]] [true])).connect sampleGlobal
          [0x52, 0x45, 0x4D, 0x4F, 0x54] = Except.ok (0, d') ∧
      d'.isConnected = true ∧
      d'._radio.log =
        [Event.setPALevel PALevel.RF24_PA_LOW,
         Event.apply_settings sampleGlobal._pairSettings,
         Event.openWritingPipe [0x52, 0x45, 0x4D, 0x4F, 0x54],
         Event.openReadingPipe 1 [1, 2, 3, 4, 5], Event.flush_buffer, Event.stopListening,
         Event.force_send [1, 2, 3, 4, 5] 5 15000 true, Event.startListening,
         Event.wait_till_available 2500 true, Event.read 1, Event.stopListening,
         Event.apply_settings (sampleSettings 5 2 false false),
         Event.setPALevel PALevel.RF24_PA_HIGH, Event.startListening,
         Event.wait_till_available 2500 true, Event.read 1, Event.stopListening,
         Event.delay 200, Event.write [0x61] 1 true, Event.startListening] := by
  refine ⟨by decide, by decide, by decide, by decide, rfl, by decide, rfl, by decide, ?_⟩
  obtain ⟨d', h1, h2, -, -, h3⟩ := connect_confirmation_transmits sampleGlobal
    (sampleSession (sampleSettings 5 2 false false) false
      (scriptedRadio [] [true] [[⟨1, [0x06]⟩], [⟨1, [0x61]⟩]] [true]))
    [0x52, 0x45, 0x4D, 0x4F, 0x54] ⟨1, [0x06]⟩ [] ⟨1, [0x61]⟩ []
    (by decide) (by decide) (by decide) (by decide) rfl (by decide) rfl (by decide)
  exact ⟨d', h1, h2, h3 rfl⟩

/-- Claim C10, witness: a disconnected session with a packet waiting and telemetry
supplied; nothing is touched. -/
theorem update_not_connected_witness :
    (sampleSession (sampleSettings 5 2 true true) false
      (sampleRadio [⟨1, [0xA0, 1, 2, 3, 4]⟩])).isConnected = false ∧
    (sampleSession (sampleSettings 5 2 true true) false
      (sampleRadio [⟨1, [0xA0, 1, 2, 3, 4]⟩])).update sampleGlobal [7, 7] (some [9, 9, 9, 9, 9]) =
      Except.ok (-21, [7, 7],
        sampleSession (sampleSettings 5 2 true true) false
          (sampleRadio [⟨1, [0xA0, 1, 2, 3, 4]⟩])) ∧
    (sampleSession (sampleSettings 5 2 true true) false
      (sampleRadio [⟨1, [0xA0, 1, 2, 3, 4]⟩])).check_packet sampleGlobal [0, 0, 0, 0, 0] 5
        (some [9, 9, 9, 9, 9]) 5 =
      (-21, [0, 0, 0, 0, 0],
        sampleSession (sampleSettings 5 2 true true) false
          (sampleRadio [⟨1, [0xA0, 1, 2, 3, 4]⟩])) ∧
    (sampleSession (sampleSettings 5 2 true true) false
      (sampleRadio [⟨1, [0xA0, 1, 2, 3, 4]⟩])).check_packet2 sampleGlobal [0, 0, 0, 0, 0] 5 =
      (-21, [0, 0, 0, 0, 0],
        sampleSession (sampleSettings 5 2 true true) false
          (sampleRadio [⟨1, [0xA0, 1, 2, 3, 4]⟩])) :=
  ⟨by decide,
    update_not_connected sampleGlobal
      (sampleSession (sampleSettings 5 2 true true) false
        (sampleRadio [⟨1, [0xA0, 1, 2, 3, 4]⟩]))
      [7, 7] (some [9, 9, 9, 9, 9]) [0, 0, 0, 0, 0] 5 5 (by decide)⟩

/-- Claim C11, witness: a connected session with an empty radio, a telemetry buffer and
payload mode enabled; the only new trace entry is the `available` call. -/
theorem update_idle_witness :
    (sampleSession (sampleSettings 5 2 true true) true (sampleRadio [])).isConnected = true ∧
    (sampleRadio []).rx = [] ∧
    ∃ d', (sampleSession (sampleSettings 5 2 true true) true (sampleRadio [])).update
        sampleGlobal [3, 4] (some [9, 9, 9, 9, 9]) = Except.ok (0, [3, 4], d') ∧
      d'.isConnected = true ∧ d'._remoteId = [9, 8, 7, 6, 5] ∧
      d'._radio.log = [Event.available false] ∧
      transmissions d'._radio.log = [] ∧ ackPayloads d'._radio.log = [] := by
  refine ⟨by decide, rfl, ?_⟩
  obtain ⟨d', h, hd, h1, h2, h3, h4⟩ := update_idle sampleGlobal
    (sampleSession (sampleSettings 5 2 true true) true (sampleRadio []))
    [3, 4] (some [9, 9, 9, 9, 9]) (by decide) rfl
  refine ⟨d', h, h1, h2, ?_, h3, h4⟩
  rw [hd]
  rfl

/-- Claim C13, witness: the announcement arrives, the device identifier is acknowledged and
the settings are not; the result is `RC_ERROR_LOST_CONNECTION` and the session is as
disconnected as before. -/
theorem pair_result_witness :
    sampleGlobal.WF ∧
    sampleGlobal.RC_ERROR_TIMEOUT ≠ sampleGlobal.RC_ERROR_LOST_CONNECTION ∧
    ((sampleSession (sampleSettings 5 2 true false) false
      (scriptedRadio [] [] [[⟨1, [0x52, 0x45, 0x4D, 0x4F, 0x54]⟩]] [true, false])).pair
        sampleGlobal).1 = -11 ∧
    ((sampleSession (sampleSettings 5 2 true false) false
      (scriptedRadio [] [] [[⟨1, [0x52, 0x45, 0x4D, 0x4F, 0x54]⟩]] [true, false])).pair
        sampleGlobal).2.isConnected = false := by
  refine ⟨by decide, by decide, ?_, ?_⟩
  · exact (pair_result sampleGlobal
      (sampleSession (sampleSettings 5 2 true false) false
        (scriptedRadio [] [] [[⟨1, [0x52, 0x45, 0x4D, 0x4F, 0x54]⟩]] [true, false]))
      (by decide) (by decide)).2.1.2 (by decide)
  · exact (pair_result sampleGlobal
      (sampleSession (sampleSettings 5 2 true false) false
        (scriptedRadio [] [] [[⟨1, [0x52, 0x45, 0x4D, 0x4F, 0x54]⟩]] [true, false]))
      (by decide) (by decide)).2.2.2

/-- Claim C14, witness: the announcement arrives and both writes are acknowledged; the whole
trace of the call. -/
theorem pair_sequence_witness :
    ((sampleSession (sampleSettings 5 2 true false) false
      (scriptedRadio [] [] [[⟨1, [0x52, 0x45, 0x4D, 0x4F, 0x54]⟩]] [true, true])).pair
        sampleGlobal).2._radio.log =
      [Event.setPALevel PALevel.RF24_PA_LOW, Event.apply_settings sampleGlobal._pairSettings,
       Event.openReadingPipe 1 [0x50, 0x41, 0x49, 0x52, 0x30], Event.startListening,
       Event.flush_buffer, Event.wait_till_available 15000 true, Event.read 5,
       Event.saveRemoteID [0x52, 0x45, 0x4D, 0x4F, 0x54], Event.stopListening,
       Event.openWritingPipe [0x52, 0x45, 0x4D, 0x4F, 0x54], Event.delay 200,
       Event.write [1, 2, 3, 4, 5] 5 true, Event.delay 200,
       Event.write (List.replicate 32 0) 32 true] :=
  (((pair_sequence sampleGlobal
      (sampleSession (sampleSettings 5 2 true false) false
        (scriptedRadio [] [] [[⟨1, [0x52, 0x45, 0x4D, 0x4F, 0x54]⟩]] [true, true]))).2
      ⟨1, [0x52, 0x45, 0x4D, 0x4F, 0x54]⟩ [] rfl).2.2 rfl).1

/-- An instance of `update_reconnect`: byte 0 is exactly the Reconnect tag and
acknowledgement mode is disabled; the call sends one ACK byte and the radio listens
again. -/
theorem update_reconnect_witness :
    sampleGlobal.WF ∧
    (sampleSession (sampleSettings 5 2 false false) true
      (scriptedRadio [⟨1, [0xD0, 0, 0, 0, 0]⟩] [] [] [true])).isConnected = true ∧
    1 ≤ (sampleSettings 5 2 false false).getPayloadSize ∧
    (scriptedRadio [⟨1, [0xD0, 0, 0, 0, 0]⟩] [] [] [true]).rx = [⟨1, [0xD0, 0, 0, 0, 0]⟩] ∧
    [0xD0, 0, 0, 0, 0][0]? = some sampleGlobal._PACKET_RECONNECT ∧
    ∃ d',
      (sampleSession (sampleSettings 5 2 false false) true
        (scriptedRadio [⟨1, [0xD0, 0, 0, 0, 0]⟩] [] [] [true])).update sampleGlobal [3, 4]
          none = Except.ok (0, [3, 4], d') ∧
      d'.isConnected = true ∧
      d'._radio.log =
        [Event.available true, Event.read 5, Event.stopListening, Event.delay 20,
         Event.write [0x06] 1 true, Event.startListening, Event.available false] ∧
      transmissions d'._radio.log = [Event.write [0x06] 1 true] ∧
      d'._radio.listening = true := by
  refine ⟨by decide, by decide, by decide, rfl, by decide, ?_⟩
  obtain ⟨d', h, h1, h2, -⟩ := update_reconnect sampleGlobal
    (sampleSession (sampleSettings 5 2 false false) true
      (scriptedRadio [⟨1, [0xD0, 0, 0, 0, 0]⟩] [] [] [true]))
    [3, 4] none ⟨1, [0xD0, 0, 0, 0, 0]⟩ (by decide) (by decide) (by decide) rfl (by decide)
  exact ⟨d', h, h1, (h2 rfl).1, (h2 rfl).2.1, (h2 rfl).2.2⟩

/-- Claim C16, witness: payload mode disabled, telemetry supplied, a Channels packet and a
Reconnect packet buffered, acknowledgement mode disabled. -/
theorem update_no_telemetry_witness :
    sampleGlobal.RC_ERROR_NOT_CONNECTED < 0 ∧
    UpdateReady
      (sampleSession (sampleSettings 5 2 false false) true
        (sampleRadio [⟨1, [0xA0, 1, 2, 3, 4]⟩, ⟨1, [0xD0, 0, 0, 0, 0]⟩])) [0, 0] ∧
    (sampleSettings 5 2 false false).getEnableAckPayload = false ∧
    ∃ code ch' d' es,
      (sampleSession (sampleSettings 5 2 false false) true
        (sampleRadio [⟨1, [0xA0, 1, 2, 3, 4]⟩, ⟨1, [0xD0, 0, 0, 0, 0]⟩])).update
          sampleGlobal [0, 0] (some [9, 9, 9, 9, 9]) = Except.ok (code, ch', d') ∧
      d'._radio.log = [] ++ es ∧ ackPayloads es = [] ∧
      ∀ e ∈ transmissions es, IsAckWrite sampleGlobal e :=
  ⟨by decide, by decide, by decide,
    update_no_telemetry sampleGlobal
      (sampleSession (sampleSettings 5 2 false false) true
        (sampleRadio [⟨1, [0xA0, 1, 2, 3, 4]⟩, ⟨1, [0xD0, 0, 0, 0, 0]⟩]))
      [0, 0] (some [9, 9, 9, 9, 9]) (by decide) (by decide) (by decide)⟩

/-- Claim C18, witness: payload size 5 for two channels, a channels array of three entries,
and buffered payloads shorter and longer than a packet. -/
theorem update_index_safe_witness :
    sampleGlobal.RC_ERROR_NOT_CONNECTED < 0 ∧
    1 + 2 * (sampleSettings 5 2 true false).getNumChannels ≤
      (sampleSettings 5 2 true false).getPayloadSize ∧
    (sampleSettings 5 2 true false).getNumChannels ≤ [0, 0, 7].length ∧
    ∃ code ch' d',
      (sampleSession (sampleSettings 5 2 true false) true
        (sampleRadio [⟨1, [0xA0, 1]⟩, ⟨1, [0xA0, 1, 2, 3, 4, 5, 6]⟩, ⟨1, []⟩])).update
          sampleGlobal [0, 0, 7] none = Except.ok (code, ch', d') ∧
      ch'.length = [0, 0, 7].length ∧ ch'.drop 2 = [0, 0, 7].drop 2 :=
  ⟨by decide, by decide, by decide,
    (update_index_safe sampleGlobal
      (sampleSession (sampleSettings 5 2 true false) true
        (sampleRadio [⟨1, [0xA0, 1]⟩, ⟨1, [0xA0, 1, 2, 3, 4, 5, 6]⟩, ⟨1, []⟩]))
      [0, 0, 7] none (by decide) (by decide) (by decide)).2⟩

/-- Claim C20, witness: two Channels packets and a Reconnect packet; the channels end up as
the second packet has them and the third entry of the array is untouched. -/
theorem update_last_channels_witness :
    sampleGlobal.RC_ERROR_NOT_CONNECTED < 0 ∧
    UpdateReady
      (sampleSession (sampleSettings 5 2 true false) true
        (sampleRadio [⟨1, [0xA0, 1, 2, 3, 4]⟩, ⟨1, [0xA0, 5, 6, 7, 8]⟩,
          ⟨1, [0xD0, 0, 0, 0, 0]⟩])) [0, 0, 7] ∧
    ∃ code ch' d',
      (sampleSession (sampleSettings 5 2 true false) true
        (sampleRadio [⟨1, [0xA0, 1, 2, 3, 4]⟩, ⟨1, [0xA0, 5, 6, 7, 8]⟩,
          ⟨1, [0xD0, 0, 0, 0, 0]⟩])).update sampleGlobal [0, 0, 7] none =
        Except.ok (code, ch', d') ∧
      ch'.length = 3 ∧ ch'.drop 2 = [7] ∧ ch'.take 2 = [1286, 1800] := by
  refine ⟨by decide, by decide, ?_⟩
  obtain ⟨code, ch', d', h, h1, h2, h3, -⟩ := update_last_channels sampleGlobal
    (sampleSession (sampleSettings 5 2 true false) true
      (sampleRadio [⟨1, [0xA0, 1, 2, 3, 4]⟩, ⟨1, [0xA0, 5, 6, 7, 8]⟩,
        ⟨1, [0xD0, 0, 0, 0, 0]⟩]))
    [0, 0, 7] none (by decide) (by decide)
  exact ⟨code, ch', d', h, h1, h2, h3 ⟨1, [0xA0, 5, 6, 7, 8]⟩ (by decide)⟩

/-- Claim C21, witness: acknowledgement mode disabled and an empty acknowledgement script,
so the radio reports the write of the test byte as not delivered; `connect` still returns 0
and the session is connected. -/
theorem connect_ignores_reply_outcome_witness :
    sampleGlobal._ACK ≠ sampleGlobal._NACK ∧
    ([9, 8, 7, 6, 5] : List Nat).length = 5 ∧ 5 ≤ [0x52, 0x45, 0x4D, 0x4F, 0x54].length ∧
    (sampleSettings 5 2 false false).getEnableAck = false ∧
    (scriptedRadio [] [true] [[⟨1, [0x06]⟩], [⟨1, [0x61]⟩]] [false]).forced.head? = some true ∧
    (scriptedRadio [] [true] [[⟨1, [0x06]⟩], [⟨1, [0x61]⟩]] [false]).arrivals.headD [] =
      [⟨1, [0x06]⟩] ∧
    firstByte ⟨1, [0x06]⟩ = sampleGlobal._ACK ∧
    pendingOf [] [[⟨1, [0x61]⟩]] = [⟨1, [0x61]⟩] ∧
    firstByte ⟨1, [0x61]⟩ = sampleGlobal._TEST ∧
    (scriptedRadio [] [true] [[⟨1, [0x06]⟩], [⟨1, [0x61]⟩]] [false]).acks.headD false = false ∧
    ∃ d', (sampleSession (sampleSettings 5 2 false false) false
        (scriptedRadio [] [true] [[⟨1, [0x06]⟩], [⟨1, [0x61]⟩]] [false])).connect sampleGlobal
          [0x52, 0x45, 0x4D, 0x4F, 0x54] = Except.ok (0, d') ∧
      d'.isConnected = true ∧ d'._remoteId = [0x52, 0x45, 0x4D, 0x4F, 0x54] ∧
      d'._radio.listening = true ∧
      transmissions d'._radio.log =
        [Event.force_send [1, 2, 3, 4, 5] 5 15000 true, Event.write [0x61] 1 false] := by
  refine ⟨by decide, by decide, by decide, rfl, by decide, rfl, by decide, rfl, by decide,
    rfl, ?_⟩
  obtain ⟨d', h1, h2, h3, h4, h5⟩ := connect_ignores_reply_outcome sampleGlobal
    (sampleSession (sampleSettings 5 2 false false) false
      (scriptedRadio [] [true] [[⟨1, [0x06]⟩], [⟨1, [0x61]⟩]] [false]))
    [0x52, 0x45, 0x4D, 0x4F, 0x54] ⟨1, [0x06]⟩ [] ⟨1, [0x61]⟩ [] false
    (by decide) (by decide) (by decide) rfl (by decide) rfl (by decide) rfl (by decide) rfl
  refine ⟨d', h1, h2, h3, h4, ?_⟩
  rw [h5]
  rfl

end RcProtocol
